import Mathlib

/-!
Shallow embedding of the oc registry's component-rendering and publish
routes (registry/routes/index.js) together with the collaborator
interfaces they depend on, and theorems settling the specification's
claims about them.

External collaborators (repository, sanitiser, validator, url-builder,
client renderer, the vm host, the accept-language parser, tar.gz
extraction, path resolution) are modelled as abstract function fields of
an environment record: the handlers' own control flow, branching,
status codes, cache reads and writes, and the exact call order are
translated line by line from the route source.  A JavaScript handler
run either ends in an HTTP response or in an uncaught exception
(`HandlerResult.crash`); every collaborator invocation is recorded in
an event trace so that "never fetched / never invoked" properties are
directly observable.
-/

namespace Oc

/-! ## Basic data model -/

/-- Request parameters: a JS object of string-valued query parameters. -/
abbrev Params := List (String × String)

/-- The component's declared parameter schema (`component.oc.parameters`).
The sanitiser/validator modules are external collaborators, so the schema
is an opaque token here. -/
abbrev ParamSchema := String

/-- Result shape of `validator.validateComponentParameters` /
`validator.validateVersion` / `validator.validatePackage`:
`{ isValid, errors: { message } }`. -/
structure ValidationResult where
  isValid : Bool
  errorsMessage : String
deriving DecidableEq, Repr

/-- `component.oc.files.template`: `{ type, hashKey }`. -/
structure TemplateFile where
  type : String
  hashKey : String
deriving DecidableEq, Repr

/-- `component.oc.files`: the template descriptor plus the truthiness of
the optional `dataProvider` descriptor (the route only tests it for
truthiness at `if(!component.oc.files.dataProvider)`). -/
structure ComponentFiles where
  template : TemplateFile
  dataProvider : Bool
deriving DecidableEq, Repr

/-- `component.oc`: declared parameter schema and file manifest. -/
structure OcConfig where
  parameters : ParamSchema
  files : ComponentFiles
deriving DecidableEq, Repr

/-- Component metadata as returned by `repository.getComponent`. -/
structure Component where
  name : String
  version : String
  oc : OcConfig
deriving DecidableEq, Repr

/-- A rendered data object handed to the `returnComponent` callback:
either the literal empty object `{}` (the no-data-provider path) or an
opaque value produced by a data-provider. -/
inductive JsData
  | emptyObject
  | value (v : String)
deriving DecidableEq, Repr

/-- The console binding injected into the data-provider context:
`res.conf.local ? console : { log: _.noop }`. -/
inductive ConsoleKind
  | host
  | noopLog
deriving DecidableEq, Repr

/-- The context object built for `vm.runInNewContext(dataProcessorJs, context)`:
`{ require: new RequireWrapper(res.injectedDependencies),
   module: { exports: {} },
   console: res.conf.local ? console : { log: _.noop } }`.
`requireAllowList` records the dependency allow-list the RequireWrapper is
constructed over; `moduleExports` is the initial `module.exports` table
(compiled functions are identified by opaque `Nat` tokens). -/
structure DataContext where
  requireAllowList : List String
  moduleExports : List (String × Nat)
  console : ConsoleKind
deriving DecidableEq, Repr

/-- The context object built for the template run:
`{ jade: require('jade/runtime.js') }` — the single templating-runtime
binding, recorded by the module path it is loaded from. -/
structure TemplateContext where
  jade : String
deriving DecidableEq, Repr

/-- The per-request context object handed to the data-provider
(lines 167-173 of the route source). -/
structure ReqObj where
  acceptLanguage : String
  baseUrl : String
  env : String
  params : Params
  staticPath : String
deriving DecidableEq, Repr

/-- The `options` object handed to `client.renderTemplate`. -/
structure RenderOptions where
  href : String
  key : String
  version : String
  templateType : String
deriving DecidableEq, Repr

/-- The argument a data-provider passes to its `returnComponent`
callback: a truthy error, or `(null, data)`. -/
inductive CallbackArg
  | fail
  | ok (d : JsData)
deriving DecidableEq, Repr

/-- Outcome of invoking a compiled data-provider function
`processData(reqObj, returnComponent)`: it either calls the callback
once, or throws synchronously. -/
inductive ProviderResult
  | callback (a : CallbackArg)
  | throws (m : String)
deriving DecidableEq, Repr

/-- Outcome of `vm.runInNewContext`: the sandboxed source runs to
completion (yielding whatever is observed from the context afterwards)
or throws. -/
inductive VmOutcome (α : Type)
  | ok (a : α)
  | throws (m : String)
deriving DecidableEq, Repr

/-! ## Responses -/

/-- `template: { src, type, key }` of the pre-rendered response. -/
structure TemplateRef where
  src : String
  type : String
  key : String
deriving DecidableEq, Repr

/-- The common `response` object of `returnComponent`
(lines 109-114): `{ href, type, version, requestVersion }`. -/
structure BaseResp where
  href : String
  type : String
  version : String
  requestVersion : String
deriving DecidableEq, Repr

/-- JSON bodies produced by the two routes. `componentPre` carries
`renderMode: 'pre-rendered'` and `componentRendered` carries
`renderMode: 'rendered'` implicitly in the constructor. -/
inductive HttpBody
  | errField (e : String)
  | errorField (e : String)
  | componentPre (base : BaseResp) (data : JsData) (template : TemplateRef)
  | componentRendered (base : BaseResp) (html : Option String)
  | publishOk
  | errorWithDetails (e : String) (details : String)
deriving DecidableEq, Repr

/-- A handler run ends in `res.json(status, body)` or in an uncaught
exception escaping the callback chain. -/
inductive HandlerResult
  | response (status : Nat) (body : HttpBody)
  | crash (m : String)
deriving DecidableEq, Repr

/-! ## Cache -/

/-- The `file-contents` namespace of the route's `nice-cache`: keys are
the formatted `name/version/server.js` / `name/version/template.js`
strings; a stored value is a compiled-function token, or `none` when
`undefined` was stored. -/
abbrev Cache := List (String × Option Nat)

/-- First-match association lookup (JS object property read). -/
def assocGet {α : Type} : List (String × α) → String → Option α
  | [], _ => none
  | (k, v) :: rest, key => if k = key then some v else assocGet rest key

/-- `cache.get('file-contents', key)`. -/
def cacheGet (c : Cache) (key : String) : Option (Option Nat) :=
  assocGet c key

/-- `cache.set('file-contents', key, v)`: overwrites any previous entry
(the new binding shadows the old one under first-match lookup). -/
def cacheSet (c : Cache) (key : String) (v : Option Nat) : Cache :=
  (key, v) :: c

/-- JS truthiness of the cached value: `!!cached` is true exactly when
the key is present and holds an actual function. -/
def cachedTruthy : Option (Option Nat) → Bool
  | some (some _) => true
  | _ => false

/-- The guard `!!cached && !res.conf.local`: yields the cached function
exactly when the lookup is truthy and the registry is not in local
(development) mode, otherwise signals the recompile path. -/
def cacheHit (cached : Option (Option Nat)) (localMode : Bool) : Option Nat :=
  match cached, localMode with
  | some (some t), false => some t
  | _, _ => none

/-! ## Events -/

/-- Trace of collaborator invocations performed by a handler run. -/
inductive Ev
  | getComponent (name version : String)
  | getDataProvider (name version : String)
  | vmRunData (ctx : DataContext)
  | invokeProvider (tok : Nat) (req : ReqObj)
  | getCompiledView (name version : String)
  | vmRunTemplate (ctx : TemplateContext)
  | renderTemplate (template : Option Nat) (data : JsData)
  | cacheSet (key : String) (v : Option Nat)
deriving DecidableEq, Repr

/-- Events belonging to the template sandbox path: compiled-view fetch,
vm execution of template text, render-function call. -/
def isTemplateEv : Ev → Bool
  | .getCompiledView _ _ => true
  | .vmRunTemplate _ => true
  | .renderTemplate _ _ => true
  | _ => false

/-- Events belonging to the sandbox's data path: data-provider fetch,
vm compilation, provider invocation. -/
def isDataEv : Ev → Bool
  | .getDataProvider _ _ => true
  | .vmRunData _ => true
  | .invokeProvider _ _ => true
  | _ => false

def usesTemplateSandbox (evs : List Ev) : Bool := evs.any isTemplateEv

def usesDataPath (evs : List Ev) : Bool := evs.any isDataEv

/-! ## Environment: external collaborators -/

/-- The collaborators `exports.component` calls out to.  Each field is
the behaviour of one external module at the call sites the route uses. -/
structure ComponentEnv where
  getComponent : String → String → Except String Component
  sanitiseComponentParameters : Params → ParamSchema → Params
  validateComponentParameters : Params → ParamSchema → ValidationResult
  urlBuilderComponent : String → String → Params → String → String
  getStaticFilePath : String → String → String → String
  parseAcceptLanguage : Option String → String
  getDataProvider : String → String → Except String String
  runDataVm : String → DataContext → VmOutcome (Option Nat)
  invokeProvider : Nat → ReqObj → ProviderResult
  getCompiledView : String → String → Except String String
  runTemplateVm : String → TemplateContext → VmOutcome (Option (List (String × Nat)))
  renderTemplate : Option Nat → JsData → RenderOptions → Except Unit String

/-- The inbound request for the component route. -/
structure ComponentRequest where
  componentName : String
  componentVersion : Option String
  query : Params
  accept : Option String
  acceptLanguage : Option String
deriving DecidableEq, Repr

/-- `res.conf`: the fields the component route reads. -/
structure ResConf where
  baseUrl : String
  localMode : Bool
  env : String
deriving DecidableEq, Repr

/-! ## Handler helpers translated from the source -/

/-- Splits a character list at the first occurrence of a pattern,
returning the segments before and after it (`none` when absent). -/
def splitAtSub (s pat : List Char) : Option (List Char × List Char) :=
  match s with
  | [] => if pat = [] then some ([], []) else none
  | c :: cs =>
    if pat.isPrefixOf (c :: cs) then some ([], (c :: cs).drop pat.length)
    else
      match splitAtSub cs pat with
      | none => none
      | some (pre, post) => some (c :: pre, post)

/-- JS `String.prototype.replace` with a plain-string pattern: replaces
the first occurrence only. -/
def replaceFirst (s pat rep : String) : String :=
  match splitAtSub s.data pat.data with
  | none => s
  | some (pre, post) => String.mk pre ++ rep ++ String.mk post

/-- The context built for the data-provider vm run (lines 184-190):
a RequireWrapper over `res.injectedDependencies`, a fresh empty
`module.exports` table, and the local/noop console. -/
def dataContext (injectedDependencies : List String) (localMode : Bool) : DataContext :=
  { requireAllowList := injectedDependencies
    moduleExports := []
    console := if localMode then .host else .noopLog }

/-- The context built for the template vm run (line 151):
`{ jade: require('jade/runtime.js') }`. -/
def templateContext : TemplateContext :=
  { jade := "jade/runtime.js" }

/-- The sanitised parameters (line 87):
`sanitiser.sanitiseComponentParameters(requestedComponent.parameters,
component.oc.parameters)`. -/
def paramsOf (E : ComponentEnv) (req : ComponentRequest) (component : Component) : Params :=
  E.sanitiseComponentParameters req.query component.oc.parameters

/-- The `reqObj` assembled for the data-provider (lines 167-173). -/
def reqObjOf (E : ComponentEnv) (conf : ResConf) (params : Params)
    (acceptLanguageHeader : Option String) (component : Component) : ReqObj :=
  { acceptLanguage := E.parseAcceptLanguage acceptLanguageHeader
    baseUrl := conf.baseUrl
    env := conf.env
    params := params
    staticPath := replaceFirst
      (E.getStaticFilePath component.name component.version "") "https:" "" }

/-- The `response` object of `returnComponent` (lines 103-114). -/
def mkBase (E : ComponentEnv) (conf : ResConf) (requestedVersion : String)
    (params : Params) (component : Component) : BaseResp :=
  { href := E.urlBuilderComponent component.name requestedVersion params conf.baseUrl
    type := if conf.localMode then "oc-component-local" else "oc-component"
    version := component.version
    requestVersion := requestedVersion }

/-- The static template reference of the pre-rendered response
(lines 119-123). -/
def templateRefOf (E : ComponentEnv) (component : Component) : TemplateRef :=
  { src := E.getStaticFilePath component.name component.version "template.js"
    type := component.oc.files.template.type
    key := component.oc.files.template.hashKey }

/-- The `options` object built for `client.renderTemplate`
(lines 131-136). -/
def renderOptionsOf (E : ComponentEnv) (conf : ResConf) (requestedVersion : String)
    (params : Params) (component : Component) : RenderOptions :=
  { href := (mkBase E conf requestedVersion params component).href
    key := component.oc.files.template.hashKey
    version := component.version
    templateType := component.oc.files.template.type }

/-- The formatted cache key `'{0}/{1}/server.js'`. -/
def serverKey (component : Component) : String :=
  component.name ++ "/" ++ component.version ++ "/server.js"

/-- The formatted cache key `'{0}/{1}/template.js'`. -/
def templateKey (component : Component) : String :=
  component.name ++ "/" ++ component.version ++ "/template.js"

/-- `returnComponent` (lines 97-159), the callback every data path ends
in.  On a truthy error: 502.  Otherwise: pre-rendered short-circuit on
the accept header, or the template path — production cache hit, or
compiled-view fetch (whose `err` the source ignores: an error leaves
`templateText` undefined and `vm.runInNewContext` throws a `TypeError`),
vm execution, extraction of `context.oc.components[key]`, cache store,
and `client.renderTemplate` (whose `err` the source also ignores: the
response is a 200 whose `html` is undefined on failure). -/
def returnComponent (E : ComponentEnv) (conf : ResConf) (accept : Option String)
    (requestedVersion : String) (params : Params) (component : Component)
    (arg : CallbackArg) (cache : Cache) (evs : List Ev) :
    HandlerResult × List Ev × Cache :=
  match arg with
  | .fail => (.response 502 (.errorField "component data resolving error"), evs, cache)
  | .ok data =>
    let response := mkBase E conf requestedVersion params component
    if accept = some "application/vnd.oc.prerendered+json" then
      (.response 200 (.componentPre response data (templateRefOf E component)), evs, cache)
    else
      let cacheKey := templateKey component
      let cached := cacheGet cache cacheKey
      let key := component.oc.files.template.hashKey
      let options := renderOptionsOf E conf requestedVersion params component
      let returnResult := fun (template : Option Nat) (cache' : Cache) (evs' : List Ev) =>
        match E.renderTemplate template data options with
        | .ok html =>
          (HandlerResult.response 200 (.componentRendered response (some html)),
            evs' ++ [Ev.renderTemplate template data], cache')
        | .error _ =>
          (HandlerResult.response 200 (.componentRendered response none),
            evs' ++ [Ev.renderTemplate template data], cache')
      match cacheHit cached conf.localMode with
      | some t => returnResult (some t) cache evs
      | none =>
        match E.getCompiledView component.name component.version with
        | .error _ =>
          (.crash "TypeError: vm.runInNewContext template text is undefined",
            evs ++ [Ev.getCompiledView component.name component.version], cache)
        | .ok templateText =>
          match E.runTemplateVm templateText templateContext with
          | .throws m =>
            (.crash m,
              evs ++ [Ev.getCompiledView component.name component.version,
                      Ev.vmRunTemplate templateContext], cache)
          | .ok none =>
            (.crash "TypeError: cannot read property components of undefined",
              evs ++ [Ev.getCompiledView component.name component.version,
                      Ev.vmRunTemplate templateContext], cache)
          | .ok (some comps) =>
            let template := assocGet comps key
            returnResult template (cacheSet cache cacheKey template)
              (evs ++ [Ev.getCompiledView component.name component.version,
                       Ev.vmRunTemplate templateContext,
                       Ev.cacheSet cacheKey template])

/-- Result of the data-obtaining phase (lines 161-198): either an early
termination (error response or uncaught throw), or a `returnComponent`
invocation with the argument the provider (or the no-provider branch)
supplied. -/
inductive DataPhaseResult
  | early (r : HandlerResult) (evs : List Ev) (cache : Cache)
  | proceed (arg : CallbackArg) (cache : Cache) (evs : List Ev)

/-- The data-obtaining phase of `exports.component` (lines 161-198):
no data-provider declared means `returnComponent(null, {})`; otherwise
the production cache hit invokes the cached function, and the miss (or
development-mode) path fetches the source, runs it in a fresh data
context, extracts `module.exports.data`, stores it, and invokes it.
Neither the vm run nor the invocation is wrapped in a try/catch in the
source, so a synchronous throw escapes as a crash; an undefined `data`
export is stored and then crashes when called. -/
def dataPhase (E : ComponentEnv) (conf : ResConf) (deps : List String)
    (req : ComponentRequest) (params : Params) (component : Component)
    (cache : Cache) (evs0 : List Ev) : DataPhaseResult :=
  if !component.oc.files.dataProvider then
    .proceed (.ok .emptyObject) cache evs0
  else
    let cacheKey := serverKey component
    let cached := cacheGet cache cacheKey
    let reqObj := reqObjOf E conf params req.acceptLanguage component
    match cacheHit cached conf.localMode with
    | some tok =>
      match E.invokeProvider tok reqObj with
      | .throws m => .early (.crash m) (evs0 ++ [Ev.invokeProvider tok reqObj]) cache
      | .callback arg => .proceed arg cache (evs0 ++ [Ev.invokeProvider tok reqObj])
    | none =>
      match E.getDataProvider component.name component.version with
      | .error _ =>
        .early (.response 502 (.errorField "component resolving error"))
          (evs0 ++ [Ev.getDataProvider component.name component.version]) cache
      | .ok dataProcessorJs =>
        let context := dataContext deps conf.localMode
        let evs1 := evs0 ++ [Ev.getDataProvider component.name component.version,
                             Ev.vmRunData context]
        match E.runDataVm dataProcessorJs context with
        | .throws m => .early (.crash m) evs1 cache
        | .ok processData =>
          let cache' := cacheSet cache cacheKey processData
          let evs2 := evs1 ++ [Ev.cacheSet cacheKey processData]
          match processData with
          | none => .early (.crash "TypeError: processData is not a function") evs2 cache'
          | some tok =>
            match E.invokeProvider tok reqObj with
            | .throws m => .early (.crash m) (evs2 ++ [Ev.invokeProvider tok reqObj]) cache'
            | .callback arg => .proceed arg cache' (evs2 ++ [Ev.invokeProvider tok reqObj])

/-- `exports.component` (lines 68-200): version default, metadata
lookup, parameter sanitising and validation, then the data phase feeding
`returnComponent`. -/
def componentHandler (E : ComponentEnv) (conf : ResConf) (deps : List String)
    (req : ComponentRequest) (cache : Cache) : HandlerResult × List Ev × Cache :=
  let requestedVersion := req.componentVersion.getD ""
  match E.getComponent req.componentName requestedVersion with
  | .error e =>
    (.response 404 (.errField e), [Ev.getComponent req.componentName requestedVersion], cache)
  | .ok component =>
    let evs0 := [Ev.getComponent req.componentName requestedVersion]
    let params := paramsOf E req component
    let result := E.validateComponentParameters params component.oc.parameters
    if !result.isValid then
      (.response 400 (.errorField result.errorsMessage), evs0, cache)
    else
      match dataPhase E conf deps req params component cache evs0 with
      | .early r evs c => (r, evs, c)
      | .proceed arg c evs =>
        returnComponent E conf req.accept requestedVersion params component arg c evs

/-! ## Publish route -/

/-- One entry of `req.files`. -/
structure UploadedFile where
  path : String
  name : String
deriving DecidableEq, Repr

/-- The typed error object `repository.publishComponent` may yield:
`{ code, msg }`, with `code` one of the string tags the route matches. -/
structure PubErr where
  code : String
  msg : String
deriving DecidableEq, Repr

/-- The collaborators `exports.publish` calls out to. -/
structure PublishEnv where
  validateVersion : String → ValidationResult
  validatePackage : List (String × UploadedFile) → ValidationResult
  pathResolve : List String → String
  extract : String → String → Except String Unit
  publishComponent : String → String → String → Except PubErr Unit

/-- The inbound publish request: route parameters and the uploaded
files object (key → file). -/
structure PublishRequest where
  componentName : Option String
  componentVersion : Option String
  files : List (String × UploadedFile)
deriving DecidableEq, Repr

/-- Trace of collaborator invocations performed by a publish run. -/
inductive PubEv
  | validateVersionEv (v : String)
  | validatePackageEv
  | extractEv (src dest : String)
  | publishComponentEv (pkg name version : String)
deriving DecidableEq, Repr

/-- JS truthiness of an optional route-parameter string:
`undefined` and `''` are falsy. -/
def truthyStr : Option String → Bool
  | none => false
  | some s => !s.isEmpty

/-- `exports.publish` (lines 231-282): the three validation checks in
order, then extraction, then the repository commit with its typed-error
mapping.  An empty `files` object would crash at the `packageFile.path`
property read (the package validator is expected to rule it out). -/
def publishHandler (E : PublishEnv) (req : PublishRequest) :
    HandlerResult × List PubEv :=
  if !truthyStr req.componentName || !truthyStr req.componentVersion then
    (.response 409 (.errorField "malformed request"), [])
  else
    let version := req.componentVersion.getD ""
    let name := req.componentName.getD ""
    if !(E.validateVersion version).isValid then
      (.response 409 (.errorField "not a valid version"), [PubEv.validateVersionEv version])
    else if !(E.validatePackage req.files).isValid then
      (.response 409 (.errorField "package is not valid"),
        [PubEv.validateVersionEv version, PubEv.validatePackageEv])
    else
      match req.files with
      | [] =>
        (.crash "TypeError: cannot read property path of undefined",
          [PubEv.validateVersionEv version, PubEv.validatePackageEv])
      | (_, packageFile) :: _ =>
        let packagePath := E.pathResolve [packageFile.path]
        let packageUntarOutput :=
          E.pathResolve [packageFile.path, "..", replaceFirst packageFile.name ".tar.gz" ""]
        let packageOutput := E.pathResolve [packageUntarOutput, "_package"]
        let evs := [PubEv.validateVersionEv version, PubEv.validatePackageEv,
                    PubEv.extractEv packagePath packageUntarOutput]
        match E.extract packagePath packageUntarOutput with
        | .error err =>
          (.response 500 (.errorWithDetails "package file is not valid" err), evs)
        | .ok _ =>
          let evs2 := evs ++ [PubEv.publishComponentEv packageOutput name version]
          match E.publishComponent packageOutput name version with
          | .error e =>
            if e.code = "not_allowed" then (.response 403 (.errorField e.msg), evs2)
            else if e.code = "already_exists" then (.response 403 (.errorField e.msg), evs2)
            else if e.code = "name_not_valid" then (.response 409 (.errorField e.msg), evs2)
            else (.response 500 (.errorField e.msg), evs2)
          | .ok _ => (.response 200 .publishOk, evs2)

/-! ## The restricted module loader (spec-modelled)

The `RequireWrapper` module itself is not part of the sources under
review (only its construction site in the route is), so its behaviour is
modelled from the spec. -/

/-- Modelled from the spec: the source of
`registry/domain/require-wrapper` is not under review, only its
construction over `res.injectedDependencies` in the route is.  The spec
describes it as "a restricted module-loader that permits only a
pre-declared allow-list of external dependencies (anything else fails
the load)". -/
def requireWrapper (allowList : List String) (moduleName : String) : Except String Unit :=
  if moduleName ∈ allowList then .ok ()
  else .error ("require is not allowed for module " ++ moduleName)

/-! ## Concrete fixtures -/

/-- A component with a data-provider and a jade template. -/
def compA : Component :=
  { name := "x", version := "1.0.0"
    oc := { parameters := "schema"
            files := { template := { type := "jade", hashKey := "k1" }
                       dataProvider := true } } }

/-- A component with no data-provider. -/
def compB : Component :=
  { name := "banner", version := "2.0.0"
    oc := { parameters := "schema"
            files := { template := { type := "jade", hashKey := "kb" }
                       dataProvider := false } } }

/-- A happy-path environment: `compA` resolves for name `x`, validation
passes, the data-provider compiles to token 7 and yields
`value "fetched-data"`, the template compiles to token 9 under hash key
`k1` and renders to a fixed html string. -/
def envA : ComponentEnv :=
  { getComponent := fun n _ => if n = "x" then .ok compA else .error "not found"
    sanitiseComponentParameters := fun p _ => p
    validateComponentParameters := fun _ _ => { isValid := true, errorsMessage := "" }
    urlBuilderComponent := fun n v _ b => b ++ n ++ "/" ++ v
    getStaticFilePath := fun n v f => "https://cdn/" ++ n ++ "/" ++ v ++ "/" ++ f
    parseAcceptLanguage := fun _ => "en"
    getDataProvider := fun _ _ => .ok "dpsource"
    runDataVm := fun _ _ => .ok (some 7)
    invokeProvider := fun _ _ => .callback (.ok (.value "fetched-data"))
    getCompiledView := fun _ _ => .ok "tsource"
    runTemplateVm := fun _ _ => .ok (some [("k1", 9)])
    renderTemplate := fun _ _ _ => .ok "<div>html</div>" }

def confProd : ResConf := { baseUrl := "http://host/", localMode := false, env := "production" }

def confDev : ResConf := { baseUrl := "http://host/", localMode := true, env := "development" }

/-- A versionless pre-rendered request for `compA`. -/
def reqPre : ComponentRequest :=
  { componentName := "x", componentVersion := none
    query := [("p", "q")]
    accept := some "application/vnd.oc.prerendered+json"
    acceptLanguage := none }

/-- The same request in rendered mode. -/
def reqRen : ComponentRequest :=
  { componentName := "x", componentVersion := none
    query := [("p", "q")]
    accept := none
    acceptLanguage := none }

/-! ## Helper lemmas -/

/-- Event trace of a data-phase outcome. -/
def dpEvs : DataPhaseResult → List Ev
  | .early _ evs _ => evs
  | .proceed _ _ evs => evs

/-- The shapes an event freshly appended by the data phase can take:
a data-provider fetch for this component, a vm run over the
request-constructed data context, a provider invocation, or a cache
store under this component's `server.js` key. -/
def dpNewEv (deps : List String) (localMode : Bool) (component : Component) : Ev → Prop
  | .getDataProvider n v => n = component.name ∧ v = component.version
  | .vmRunData ctx => ctx = dataContext deps localMode
  | .invokeProvider _ _ => True
  | .cacheSet k _ => k = serverKey component
  | _ => False

/-- Master shape lemma for the data phase: every traced event is
inherited or of a data-path shape, and every early termination is a
crash or the 502 data-resolution error. -/
theorem dataPhase_spec (E : ComponentEnv) (conf : ResConf) (deps : List String)
    (req : ComponentRequest) (params : Params) (component : Component)
    (cache : Cache) (evs0 : List Ev) :
    (∀ e ∈ dpEvs (dataPhase E conf deps req params component cache evs0),
        e ∈ evs0 ∨ dpNewEv deps conf.localMode component e) ∧
    (∀ r evs c, dataPhase E conf deps req params component cache evs0 = .early r evs c →
        (∃ m, r = .crash m) ∨
          r = .response 502 (.errorField "component resolving error")) := by
  cases hdp : component.oc.files.dataProvider
  case false =>
    constructor
    · intro e he
      simp [dataPhase, hdp, dpEvs] at he
      exact Or.inl he
    · intro r evs c h
      simp [dataPhase, hdp] at h
  case true =>
    rcases hch : cacheHit (cacheGet cache (serverKey component)) conf.localMode with _ | tok
    · rcases hg : E.getDataProvider component.name component.version with e0 | src
      · constructor
        · intro e he
          simp [dataPhase, hdp, hch, hg, dpEvs] at he
          rcases he with he | he
          · exact Or.inl he
          · subst he; exact Or.inr (by simp [dpNewEv])
        · intro r evs c h
          simp [dataPhase, hdp, hch, hg] at h
          exact Or.inr h.1.symm
      · rcases hv : E.runDataVm src (dataContext deps conf.localMode) with pd | m
        · rcases pd with _ | tok2
          · constructor
            · intro e he
              simp [dataPhase, hdp, hch, hg, hv, dpEvs] at he
              rcases he with he | he | he | he
              · exact Or.inl he
              all_goals subst he
              · exact Or.inr (by simp [dpNewEv])
              · exact Or.inr (by simp [dpNewEv])
              · exact Or.inr (by simp [dpNewEv])
            · intro r evs c h
              simp [dataPhase, hdp, hch, hg, hv] at h
              exact Or.inl ⟨_, h.1.symm⟩
          · rcases hi : E.invokeProvider tok2 (reqObjOf E conf params req.acceptLanguage component)
              with a | m
            · constructor
              · intro e he
                simp [dataPhase, hdp, hch, hg, hv, hi, dpEvs] at he
                rcases he with he | he | he | he | he
                · exact Or.inl he
                all_goals subst he
                · exact Or.inr (by simp [dpNewEv])
                · exact Or.inr (by simp [dpNewEv])
                · exact Or.inr (by simp [dpNewEv])
                · exact Or.inr (by simp [dpNewEv])
              · intro r evs c h
                simp [dataPhase, hdp, hch, hg, hv, hi] at h
            · constructor
              · intro e he
                simp [dataPhase, hdp, hch, hg, hv, hi, dpEvs] at he
                rcases he with he | he | he | he | he
                · exact Or.inl he
                all_goals subst he
                · exact Or.inr (by simp [dpNewEv])
                · exact Or.inr (by simp [dpNewEv])
                · exact Or.inr (by simp [dpNewEv])
                · exact Or.inr (by simp [dpNewEv])
              · intro r evs c h
                simp [dataPhase, hdp, hch, hg, hv, hi] at h
                exact Or.inl ⟨_, h.1.symm⟩
        · constructor
          · intro e he
            simp [dataPhase, hdp, hch, hg, hv, dpEvs] at he
            rcases he with he | he | he
            · exact Or.inl he
            all_goals subst he
            · exact Or.inr (by simp [dpNewEv])
            · exact Or.inr (by simp [dpNewEv])
          · intro r evs c h
            simp [dataPhase, hdp, hch, hg, hv] at h
            exact Or.inl ⟨_, h.1.symm⟩
    · rcases hi : E.invokeProvider tok (reqObjOf E conf params req.acceptLanguage component)
        with a | m
      · constructor
        · intro e he
          simp [dataPhase, hdp, hch, hi, dpEvs] at he
          rcases he with he | he
          · exact Or.inl he
          · subst he; exact Or.inr (by simp [dpNewEv])
        · intro r evs c h
          simp [dataPhase, hdp, hch, hi] at h
      · constructor
        · intro e he
          simp [dataPhase, hdp, hch, hi, dpEvs] at he
          rcases he with he | he
          · exact Or.inl he
          · subst he; exact Or.inr (by simp [dpNewEv])
        · intro r evs c h
          simp [dataPhase, hdp, hch, hi] at h
          exact Or.inl ⟨_, h.1.symm⟩

/-- With the pre-rendered accept header, `returnComponent` reduces to
the error response or the pre-rendered response, leaving trace and cache
untouched. -/
theorem returnComponent_prerendered (E : ComponentEnv) (conf : ResConf)
    (requestedVersion : String) (params : Params) (component : Component)
    (arg : CallbackArg) (cache : Cache) (evs : List Ev) :
    returnComponent E conf (some "application/vnd.oc.prerendered+json")
        requestedVersion params component arg cache evs =
      match arg with
      | .fail => (.response 502 (.errorField "component data resolving error"), evs, cache)
      | .ok data =>
        (.response 200 (.componentPre (mkBase E conf requestedVersion params component)
          data (templateRefOf E component)), evs, cache) := by
  cases arg <;> simp [returnComponent]

/-- The shapes an event freshly appended by `returnComponent` can take:
a compiled-view fetch for this component, a template vm run over the
fixed template context, a render call whose data is exactly the data the
callback received, or a cache store under this component's `template.js`
key. -/
def rcNewEv (component : Component) (arg : CallbackArg) : Ev → Prop
  | .getCompiledView n v => n = component.name ∧ v = component.version
  | .vmRunTemplate ctx => ctx = templateContext
  | .renderTemplate _ d => ∃ d0, arg = .ok d0 ∧ d = d0
  | .cacheSet k _ => k = templateKey component
  | _ => False

/-- Constraints every response produced by `returnComponent` satisfies:
the only bodies are the 502 data-resolution error, the pre-rendered body
and the rendered body, and both component bodies carry the base response
built by `mkBase`. -/
def rcBodyOk (E : ComponentEnv) (conf : ResConf) (requestedVersion : String)
    (params : Params) (component : Component) (arg : CallbackArg) :
    Nat → HttpBody → Prop
  | st, .errorField e =>
      st = 502 ∧ e = "component data resolving error" ∧ arg = .fail
  | st, .componentPre base d tr =>
      st = 200 ∧ base = mkBase E conf requestedVersion params component ∧
        arg = .ok d ∧ tr = templateRefOf E component
  | st, .componentRendered base _ =>
      st = 200 ∧ base = mkBase E conf requestedVersion params component
  | _, _ => False

/-- Master shape lemma for `returnComponent`: every traced event is
inherited or of a template-path shape, and every response satisfies
`rcBodyOk`. -/
theorem returnComponent_spec (E : ComponentEnv) (conf : ResConf) (accept : Option String)
    (requestedVersion : String) (params : Params) (component : Component)
    (arg : CallbackArg) (cache : Cache) (evs : List Ev) :
    (∀ e ∈ (returnComponent E conf accept requestedVersion params component
        arg cache evs).2.1, e ∈ evs ∨ rcNewEv component arg e) ∧
    (∀ st b, (returnComponent E conf accept requestedVersion params component
        arg cache evs).1 = .response st b →
      rcBodyOk E conf requestedVersion params component arg st b) := by
  cases arg
  case fail =>
    constructor
    · intro e he
      simp [returnComponent] at he
      exact Or.inl he
    · intro st b h
      simp [returnComponent] at h
      rcases h with ⟨h1, h2⟩
      subst h1; subst h2
      simp [rcBodyOk]
  case ok data =>
    by_cases hacc : accept = some "application/vnd.oc.prerendered+json"
    · constructor
      · intro e he
        simp [returnComponent, hacc] at he
        exact Or.inl he
      · intro st b h
        simp [returnComponent, hacc] at h
        rcases h with ⟨h1, h2⟩
        subst h1; subst h2
        simp [rcBodyOk]
    · rcases hch : cacheHit (cacheGet cache (templateKey component)) conf.localMode with _ | t
      · rcases hcv : E.getCompiledView component.name component.version with e0 | templateText
        · constructor
          · intro e he
            simp [returnComponent, hacc, hch, hcv] at he
            rcases he with he | he
            · exact Or.inl he
            · subst he; exact Or.inr (by simp [rcNewEv])
          · intro st b h
            simp [returnComponent, hacc, hch, hcv] at h
        · rcases hvt : E.runTemplateVm templateText templateContext with res | m
          · rcases res with _ | comps
            · constructor
              · intro e he
                simp [returnComponent, hacc, hch, hcv, hvt] at he
                rcases he with he | he | he
                · exact Or.inl he
                all_goals subst he
                · exact Or.inr (by simp [rcNewEv])
                · exact Or.inr (by simp [rcNewEv])
              · intro st b h
                simp [returnComponent, hacc, hch, hcv, hvt] at h
            · rcases hr : E.renderTemplate (assocGet comps component.oc.files.template.hashKey)
                  data (renderOptionsOf E conf requestedVersion params component) with e1 | html
              · constructor
                · intro e he
                  simp [returnComponent, hacc, hch, hcv, hvt, hr] at he
                  rcases he with he | he | he | he | he
                  · exact Or.inl he
                  all_goals subst he
                  · exact Or.inr (by simp [rcNewEv])
                  · exact Or.inr (by simp [rcNewEv])
                  · exact Or.inr (by simp [rcNewEv])
                  · exact Or.inr (by simp [rcNewEv])
                · intro st b h
                  simp [returnComponent, hacc, hch, hcv, hvt, hr] at h
                  rcases h with ⟨h1, h2⟩
                  subst h1; subst h2
                  simp [rcBodyOk]
              · constructor
                · intro e he
                  simp [returnComponent, hacc, hch, hcv, hvt, hr] at he
                  rcases he with he | he | he | he | he
                  · exact Or.inl he
                  all_goals subst he
                  · exact Or.inr (by simp [rcNewEv])
                  · exact Or.inr (by simp [rcNewEv])
                  · exact Or.inr (by simp [rcNewEv])
                  · exact Or.inr (by simp [rcNewEv])
                · intro st b h
                  simp [returnComponent, hacc, hch, hcv, hvt, hr] at h
                  rcases h with ⟨h1, h2⟩
                  subst h1; subst h2
                  simp [rcBodyOk]
          · constructor
            · intro e he
              simp [returnComponent, hacc, hch, hcv, hvt] at he
              rcases he with he | he | he
              · exact Or.inl he
              all_goals subst he
              · exact Or.inr (by simp [rcNewEv])
              · exact Or.inr (by simp [rcNewEv])
            · intro st b h
              simp [returnComponent, hacc, hch, hcv, hvt] at h
      · rcases hr : E.renderTemplate (some t) data
            (renderOptionsOf E conf requestedVersion params component) with e1 | html
        · constructor
          · intro e he
            simp [returnComponent, hacc, hch, hr] at he
            rcases he with he | he
            · exact Or.inl he
            · subst he; exact Or.inr (by simp [rcNewEv])
          · intro st b h
            simp [returnComponent, hacc, hch, hr] at h
            rcases h with ⟨h1, h2⟩
            subst h1; subst h2
            simp [rcBodyOk]
        · constructor
          · intro e he
            simp [returnComponent, hacc, hch, hr] at he
            rcases he with he | he
            · exact Or.inl he
            · subst he; exact Or.inr (by simp [rcNewEv])
          · intro st b h
            simp [returnComponent, hacc, hch, hr] at h
            rcases h with ⟨h1, h2⟩
            subst h1; subst h2
            simp [rcBodyOk]

/-- Fresh data-phase events are never template-sandbox events. -/
theorem dpNewEv_not_template (deps : List String) (lm : Bool) (component : Component)
    (e : Ev) (h : dpNewEv deps lm component e) : isTemplateEv e = false := by
  cases e <;> simp_all [dpNewEv, isTemplateEv]

/-- Fresh `returnComponent` events are never data-path events. -/
theorem rcNewEv_not_data (component : Component) (arg : CallbackArg)
    (e : Ev) (h : rcNewEv component arg e) : isDataEv e = false := by
  cases e <;> simp_all [rcNewEv, isDataEv]

/-- Every event in a component-handler trace is the metadata lookup, a
fresh data-phase event, or — only when the accept header did not signal
pre-rendered — a fresh template-path event. -/
theorem componentHandler_evs (E : ComponentEnv) (conf : ResConf) (deps : List String)
    (req : ComponentRequest) (cache : Cache) :
    ∀ e ∈ (componentHandler E conf deps req cache).2.1,
      (∃ n v, e = Ev.getComponent n v) ∨
      (∃ component, dpNewEv deps conf.localMode component e) ∨
      (req.accept ≠ some "application/vnd.oc.prerendered+json" ∧
        ∃ component arg, rcNewEv component arg e) := by
  intro e he
  unfold componentHandler at he
  rcases hgc : E.getComponent req.componentName (req.componentVersion.getD "") with e0 | component
  · simp [hgc] at he
    exact Or.inl ⟨_, _, he⟩
  · simp only [hgc] at he
    by_cases hval : (E.validateComponentParameters (paramsOf E req component)
        component.oc.parameters).isValid
    · simp only [hval, Bool.not_true, Bool.false_eq_true, if_false] at he
      rcases hdd : dataPhase E conf deps req (paramsOf E req component) component cache
          [Ev.getComponent req.componentName (req.componentVersion.getD "")] with ⟨r, evs, c⟩ | ⟨arg, c, evs⟩
      · rw [hdd] at he
        simp only [] at he
        have hmem : e ∈ dpEvs (dataPhase E conf deps req (paramsOf E req component) component cache
            [Ev.getComponent req.componentName (req.componentVersion.getD "")]) := by
          rw [hdd]; exact he
        rcases (dataPhase_spec E conf deps req (paramsOf E req component) component cache
            [Ev.getComponent req.componentName (req.componentVersion.getD "")]).1 e hmem with h | h
        · simp at h
          exact Or.inl ⟨_, _, h⟩
        · exact Or.inr (Or.inl ⟨component, h⟩)
      · rw [hdd] at he
        simp only [] at he
        have hinherit : e ∈ evs →
            (∃ n v, e = Ev.getComponent n v) ∨
            (∃ component, dpNewEv deps conf.localMode component e) ∨
            (req.accept ≠ some "application/vnd.oc.prerendered+json" ∧
              ∃ component arg, rcNewEv component arg e) := by
          intro hin
          have hmem : e ∈ dpEvs (dataPhase E conf deps req (paramsOf E req component) component cache
              [Ev.getComponent req.componentName (req.componentVersion.getD "")]) := by
            rw [hdd]; exact hin
          rcases (dataPhase_spec E conf deps req (paramsOf E req component) component cache
              [Ev.getComponent req.componentName (req.componentVersion.getD "")]).1 e hmem with h | h
          · simp at h
            exact Or.inl ⟨_, _, h⟩
          · exact Or.inr (Or.inl ⟨component, h⟩)
        by_cases hacc : req.accept = some "application/vnd.oc.prerendered+json"
        · rw [hacc, returnComponent_prerendered] at he
          cases arg <;> simp at he <;> exact hinherit he
        · rcases (returnComponent_spec E conf req.accept (req.componentVersion.getD "")
              (paramsOf E req component) component arg c evs).1 e he with h | h
          · exact hinherit h
          · exact Or.inr (Or.inr ⟨hacc, component, arg, h⟩)
    · simp [hval] at he
      exact Or.inl ⟨_, _, he⟩

/-- `returnComponent` only ever appends to the event trace: inherited
events stay in it. -/
theorem returnComponent_evs_mem (E : ComponentEnv) (conf : ResConf) (accept : Option String)
    (requestedVersion : String) (params : Params) (component : Component)
    (arg : CallbackArg) (cache : Cache) (evs : List Ev) (e : Ev) (hin : e ∈ evs) :
    e ∈ (returnComponent E conf accept requestedVersion params component
      arg cache evs).2.1 := by
  cases arg
  case fail => simpa [returnComponent] using hin
  case ok data =>
    by_cases hacc : accept = some "application/vnd.oc.prerendered+json"
    · simpa [returnComponent, hacc] using hin
    · rcases hch : cacheHit (cacheGet cache (templateKey component)) conf.localMode with _ | t
      · rcases hcv : E.getCompiledView component.name component.version with e0 | text
        · simp [returnComponent, hacc, hch, hcv]
          exact Or.inl hin
        · rcases hvt : E.runTemplateVm text templateContext with res | m
          · rcases res with _ | comps
            · simp [returnComponent, hacc, hch, hcv, hvt]
              exact Or.inl hin
            · rcases hr : E.renderTemplate (assocGet comps component.oc.files.template.hashKey)
                  data (renderOptionsOf E conf requestedVersion params component) with e1 | html
              · simp [returnComponent, hacc, hch, hcv, hvt, hr]
                exact Or.inl hin
              · simp [returnComponent, hacc, hch, hcv, hvt, hr]
                exact Or.inl hin
          · simp [returnComponent, hacc, hch, hcv, hvt]
            exact Or.inl hin
      · rcases hr : E.renderTemplate (some t) data
            (renderOptionsOf E conf requestedVersion params component) with e1 | html
        · simp [returnComponent, hacc, hch, hr]
          exact Or.inl hin
        · simp [returnComponent, hacc, hch, hr]
          exact Or.inl hin

/-- `returnComponent` touches the cache only under the component's
`template.js` key. -/
theorem returnComponent_cacheGet (E : ComponentEnv) (conf : ResConf) (accept : Option String)
    (requestedVersion : String) (params : Params) (component : Component)
    (arg : CallbackArg) (cache : Cache) (evs : List Ev) (k : String)
    (hne : k ≠ templateKey component) :
    cacheGet (returnComponent E conf accept requestedVersion params component
      arg cache evs).2.2 k = cacheGet cache k := by
  cases arg
  case fail => simp [returnComponent]
  case ok data =>
    by_cases hacc : accept = some "application/vnd.oc.prerendered+json"
    · simp [returnComponent, hacc]
    · rcases hch : cacheHit (cacheGet cache (templateKey component)) conf.localMode with _ | t
      · rcases hcv : E.getCompiledView component.name component.version with e0 | text
        · simp [returnComponent, hacc, hch, hcv]
        · rcases hvt : E.runTemplateVm text templateContext with res | m
          · rcases res with _ | comps
            · simp [returnComponent, hacc, hch, hcv, hvt]
            · rcases hr : E.renderTemplate (assocGet comps component.oc.files.template.hashKey)
                  data (renderOptionsOf E conf requestedVersion params component) with e1 | html
              · simp only [returnComponent, hacc, hch, hcv, hvt, hr]
                simp [cacheGet, cacheSet, assocGet, hne.symm]
              · simp only [returnComponent, hacc, hch, hcv, hvt, hr]
                simp [cacheGet, cacheSet, assocGet, hne.symm]
          · simp [returnComponent, hacc, hch, hcv, hvt]
      · rcases hr : E.renderTemplate (some t) data
            (renderOptionsOf E conf requestedVersion params component) with e1 | html
        · simp [returnComponent, hacc, hch, hr]
        · simp [returnComponent, hacc, hch, hr]

/-- In development mode every cache lookup is treated as a miss. -/
theorem cacheHit_local (c : Option (Option Nat)) : cacheHit c true = none := by
  rcases c with _ | ⟨_ | t⟩ <;> rfl

/-- A component with no data-provider and its environment. -/
def envB : ComponentEnv :=
  { envA with
    getComponent := fun n _ => if n = "banner" then .ok compB else .error "not found"
    runTemplateVm := fun _ _ => .ok (some [("kb", 11)]) }

def reqB : ComponentRequest :=
  { componentName := "banner", componentVersion := some "2.0.0"
    query := [], accept := none, acceptLanguage := none }

/-! ## Claims -/

/-- Claim C8: for every render request whose accept header signals
"prerendered", the template sandbox is never invoked — no compiled-view
fetch, no vm execution of template text, no render-function call —
regardless of the cache state. -/
theorem c8_prerendered_never_invokes_template_sandbox
    (E : ComponentEnv) (conf : ResConf) (deps : List String)
    (req : ComponentRequest) (cache : Cache)
    (hacc : req.accept = some "application/vnd.oc.prerendered+json") :
    usesTemplateSandbox (componentHandler E conf deps req cache).2.1 = false := by
  simp only [usesTemplateSandbox, List.any_eq_false]
  intro e he
  rcases componentHandler_evs E conf deps req cache e he with ⟨n, v, rfl⟩ | ⟨component, hd⟩ | ⟨hne, _⟩
  · simp [isTemplateEv]
  · simp [dpNewEv_not_template deps conf.localMode component e hd]
  · exact absurd hacc hne

/-- Witness for C8: the concrete pre-rendered request against `envA`
has a template-sandbox-free trace. -/
theorem c8_witness :
    reqPre.accept = some "application/vnd.oc.prerendered+json" ∧
    usesTemplateSandbox (componentHandler envA confProd [] reqPre []).2.1 = false :=
  ⟨rfl, c8_prerendered_never_invokes_template_sandbox envA confProd [] reqPre [] rfl⟩

/-- Claim C7: for every component whose metadata declares no
data-provider file, the render proceeds with data equal to the empty
object and the sandbox's data path (data-provider fetch, compilation,
invocation) is never entered. -/
theorem c7_no_data_provider_renders_empty_object
    (E : ComponentEnv) (conf : ResConf) (deps : List String)
    (req : ComponentRequest) (cache : Cache) (component : Component)
    (hgc : E.getComponent req.componentName (req.componentVersion.getD "") = .ok component)
    (hdp : component.oc.files.dataProvider = false) :
    usesDataPath (componentHandler E conf deps req cache).2.1 = false ∧
    (∀ t d, Ev.renderTemplate t d ∈ (componentHandler E conf deps req cache).2.1 →
      d = .emptyObject) ∧
    (∀ st base d tr,
      (componentHandler E conf deps req cache).1 = .response st (.componentPre base d tr) →
      d = .emptyObject) := by
  by_cases hval : (E.validateComponentParameters (paramsOf E req component)
      component.oc.parameters).isValid
  · have hred : componentHandler E conf deps req cache =
        returnComponent E conf req.accept (req.componentVersion.getD "")
          (paramsOf E req component) component (.ok .emptyObject) cache
          [Ev.getComponent req.componentName (req.componentVersion.getD "")] := by
      simp [componentHandler, hgc, hval, dataPhase, hdp]
    rw [hred]
    refine ⟨?_, ?_, ?_⟩
    · simp only [usesDataPath, List.any_eq_false]
      intro e he
      rcases (returnComponent_spec E conf req.accept (req.componentVersion.getD "")
          (paramsOf E req component) component (.ok .emptyObject) cache
          [Ev.getComponent req.componentName (req.componentVersion.getD "")]).1 e he with h | h
      · simp at h
        subst h
        simp [isDataEv]
      · simp [rcNewEv_not_data _ _ _ h]
    · intro t d hmem
      rcases (returnComponent_spec E conf req.accept (req.componentVersion.getD "")
          (paramsOf E req component) component (.ok .emptyObject) cache
          [Ev.getComponent req.componentName (req.componentVersion.getD "")]).1 _ hmem with h | h
      · simp at h
      · simp only [rcNewEv] at h
        obtain ⟨d0, hd0, rfl⟩ := h
        injection hd0 with h2
        exact h2.symm
    · intro st base d tr hres
      have hb := (returnComponent_spec E conf req.accept (req.componentVersion.getD "")
          (paramsOf E req component) component (.ok .emptyObject) cache
          [Ev.getComponent req.componentName (req.componentVersion.getD "")]).2 st _ hres
      simp only [rcBodyOk] at hb
      obtain ⟨-, -, hd, -⟩ := hb
      injection hd with h2
      exact h2.symm
  · have hred : componentHandler E conf deps req cache =
        (.response 400 (.errorField (E.validateComponentParameters (paramsOf E req component)
            component.oc.parameters).errorsMessage),
          [Ev.getComponent req.componentName (req.componentVersion.getD "")], cache) := by
      simp [componentHandler, hgc, hval]
    rw [hred]
    refine ⟨by simp [usesDataPath, isDataEv], ?_, ?_⟩
    · intro t d hmem
      simp at hmem
    · intro st base d tr hres
      simp at hres

/-- Witness for C7: rendering `compB` (no data-provider) against `envB`
never enters the data path and carries the empty object. -/
theorem c7_witness :
    envB.getComponent reqB.componentName (reqB.componentVersion.getD "") = .ok compB ∧
    compB.oc.files.dataProvider = false ∧
    (usesDataPath (componentHandler envB confProd [] reqB []).2.1 = false ∧
    (∀ t d, Ev.renderTemplate t d ∈ (componentHandler envB confProd [] reqB []).2.1 →
      d = .emptyObject) ∧
    (∀ st base d tr,
      (componentHandler envB confProd [] reqB []).1 = .response st (.componentPre base d tr) →
      d = .emptyObject)) :=
  ⟨rfl, rfl, c7_no_data_provider_renders_empty_object envB confProd [] reqB [] compB rfl rfl⟩

/-- Counterexample to C1 as stated: on a pre-rendered request for a
component that declares a data-provider, the provider IS fetched,
compiled and invoked (the accept-header check sits inside
`returnComponent`, which only runs after data resolution), and the
response's `data` field carries the executed provider output rather
than the unexecuted request parameters. -/
theorem c1_counterexample :
    Ev.getDataProvider "x" "1.0.0" ∈ (componentHandler envA confProd [] reqPre []).2.1 ∧
    Ev.vmRunData { requireAllowList := [], moduleExports := [], console := .noopLog } ∈
      (componentHandler envA confProd [] reqPre []).2.1 ∧
    Ev.invokeProvider 7
      { acceptLanguage := "en", baseUrl := "http://host/", env := "production"
        params := [("p", "q")], staticPath := "//cdn/x/1.0.0/" } ∈
      (componentHandler envA confProd [] reqPre []).2.1 ∧
    (componentHandler envA confProd [] reqPre []).1 =
      .response 200 (.componentPre
        { href := "http://host/x/", type := "oc-component"
          version := "1.0.0", requestVersion := "" }
        (.value "fetched-data")
        { src := "https://cdn/x/1.0.0/template.js", type := "jade", key := "k1" }) := by
  refine ⟨by decide, by decide, by decide, by decide⟩

/-- Claim C1 (amended): on a pre-rendered request the template sandbox
is skipped and every success response consists of the base response plus
the component's static template references, but the `data` field carries
the result of data resolution (the executed provider output, or the
empty object for providerless components) — the data-provider path is
not skipped. -/
theorem c1_amended_prerendered_response_shape
    (E : ComponentEnv) (conf : ResConf) (deps : List String)
    (req : ComponentRequest) (cache : Cache) (component : Component)
    (hgc : E.getComponent req.componentName (req.componentVersion.getD "") = .ok component)
    (hacc : req.accept = some "application/vnd.oc.prerendered+json") :
    usesTemplateSandbox (componentHandler E conf deps req cache).2.1 = false ∧
    (∀ b, (componentHandler E conf deps req cache).1 = .response 200 b →
      ∃ data, b = .componentPre
        (mkBase E conf (req.componentVersion.getD "") (paramsOf E req component) component)
        data (templateRefOf E component)) := by
  constructor
  · simp only [usesTemplateSandbox, List.any_eq_false]
    intro e he
    rcases componentHandler_evs E conf deps req cache e he with ⟨n, v, rfl⟩ | ⟨c0, hd⟩ | ⟨hne, _⟩
    · simp [isTemplateEv]
    · simp [dpNewEv_not_template deps conf.localMode c0 e hd]
    · exact absurd hacc hne
  · by_cases hval : (E.validateComponentParameters (paramsOf E req component)
        component.oc.parameters).isValid
    · have hred : componentHandler E conf deps req cache =
          (match dataPhase E conf deps req (paramsOf E req component) component cache
              [Ev.getComponent req.componentName (req.componentVersion.getD "")] with
            | .early r evs c => (r, evs, c)
            | .proceed arg c evs =>
              returnComponent E conf req.accept (req.componentVersion.getD "")
                (paramsOf E req component) component arg c evs) := by
        simp [componentHandler, hgc, hval]
      rw [hred]
      rcases hdd : dataPhase E conf deps req (paramsOf E req component) component cache
          [Ev.getComponent req.componentName (req.componentVersion.getD "")]
          with ⟨r, evs, c⟩ | ⟨arg, c, evs⟩
      · intro b h
        simp only [] at h
        rcases (dataPhase_spec E conf deps req (paramsOf E req component) component cache
            [Ev.getComponent req.componentName (req.componentVersion.getD "")]).2 r evs c hdd
            with ⟨m, rfl⟩ | rfl
        · simp at h
        · simp at h
      · intro b h
        simp only [] at h
        rw [hacc, returnComponent_prerendered] at h
        cases arg
        · simp at h
        · simp at h
          exact ⟨_, h.symm⟩
    · have hred : componentHandler E conf deps req cache =
          (.response 400 (.errorField (E.validateComponentParameters (paramsOf E req component)
              component.oc.parameters).errorsMessage),
            [Ev.getComponent req.componentName (req.componentVersion.getD "")], cache) := by
        simp [componentHandler, hgc, hval]
      rw [hred]
      intro b h
      simp at h

/-- Witness for the amended C1 at the concrete pre-rendered request. -/
theorem c1_witness :
    envA.getComponent reqPre.componentName (reqPre.componentVersion.getD "") = .ok compA ∧
    reqPre.accept = some "application/vnd.oc.prerendered+json" ∧
    (usesTemplateSandbox (componentHandler envA confProd [] reqPre []).2.1 = false ∧
    (∀ b, (componentHandler envA confProd [] reqPre []).1 = .response 200 b →
      ∃ data, b = .componentPre
        (mkBase envA confProd (reqPre.componentVersion.getD "")
          (paramsOf envA reqPre compA) compA)
        data (templateRefOf envA compA))) :=
  ⟨rfl, rfl, c1_amended_prerendered_response_shape envA confProd [] reqPre [] compA rfl rfl⟩

/-- A data-provider whose source throws when executed in the vm. -/
def envThrow : ComponentEnv := { envA with runDataVm := fun _ _ => .throws "boom" }

/-- A data-provider that reports failure through its callback. -/
def envFail : ComponentEnv := { envA with invokeProvider := fun _ _ => .callback .fail }

/-- A repository whose data-provider source fetch fails. -/
def envDpErr : ComponentEnv := { envA with getDataProvider := fun _ _ => .error "dp gone" }

/-- A client whose render call fails. -/
def envRenderErr : ComponentEnv := { envA with renderTemplate := fun _ _ _ => .error () }

/-- A repository whose compiled-view fetch fails. -/
def envCvErr : ComponentEnv := { envA with getCompiledView := fun _ _ => .error "cdn down" }

/-- Compiled-view fetch failure for the providerless component. -/
def envCvErrB : ComponentEnv := { envB with getCompiledView := fun _ _ => .error "cdn down" }

/-- Counterexample to C2 as stated: a data-provider source that throws
during its vm execution is not caught at any sandbox boundary — the
route wraps neither `vm.runInNewContext` nor the provider invocation in
a try/catch, so the throw escapes the request handler as an uncaught
exception instead of resolving to a response. -/
theorem c2_counterexample :
    (componentHandler envThrow confProd [] reqRen []).1 = .crash "boom" := by decide

/-- Claim C2 (amended): a data-provider failure reported through the
provider's callback is converted into a 502 error response, but a
synchronous throw inside the sandboxed source or the provider function
itself propagates out of the handler as an uncaught exception — not
every failure path resolves to a response. -/
theorem c2_amended_callback_error_becomes_502
    (E : ComponentEnv) (conf : ResConf) (deps : List String)
    (req : ComponentRequest) (cache : Cache) (component : Component)
    (src : String) (tok : Nat)
    (hgc : E.getComponent req.componentName (req.componentVersion.getD "") = .ok component)
    (hval : (E.validateComponentParameters (paramsOf E req component)
      component.oc.parameters).isValid = true)
    (hdp : component.oc.files.dataProvider = true)
    (hmiss : cacheHit (cacheGet cache (serverKey component)) conf.localMode = none)
    (hg : E.getDataProvider component.name component.version = .ok src)
    (hvm : E.runDataVm src (dataContext deps conf.localMode) = .ok (some tok))
    (hinv : E.invokeProvider tok
      (reqObjOf E conf (paramsOf E req component) req.acceptLanguage component) =
      .callback .fail) :
    (componentHandler E conf deps req cache).1 =
      .response 502 (.errorField "component data resolving error") := by
  simp [componentHandler, hgc, hval, dataPhase, hdp, hmiss, hg, hvm, hinv, returnComponent]

/-- Witness for the amended C2 at a concrete always-failing provider. -/
theorem c2_witness :
    envFail.getComponent reqRen.componentName (reqRen.componentVersion.getD "") = .ok compA ∧
    (envFail.validateComponentParameters (paramsOf envFail reqRen compA)
      compA.oc.parameters).isValid = true ∧
    compA.oc.files.dataProvider = true ∧
    cacheHit (cacheGet [] (serverKey compA)) confProd.localMode = none ∧
    envFail.getDataProvider compA.name compA.version = .ok "dpsource" ∧
    envFail.runDataVm "dpsource" (dataContext [] confProd.localMode) = .ok (some 7) ∧
    envFail.invokeProvider 7
      (reqObjOf envFail confProd (paramsOf envFail reqRen compA) reqRen.acceptLanguage compA) =
      .callback .fail ∧
    (componentHandler envFail confProd [] reqRen []).1 =
      .response 502 (.errorField "component data resolving error") :=
  ⟨rfl, rfl, rfl, rfl, rfl, rfl, rfl,
    c2_amended_callback_error_becomes_502 envFail confProd [] reqRen [] compA "dpsource" 7
      rfl rfl rfl rfl rfl rfl rfl⟩

/-- Counterexample to C3 as stated: template-resolution failures do not
yield 502 — a failing render call is ignored and produces a 200 success
response with no html, and a failing compiled-view fetch is ignored and
crashes the callback chain with a TypeError. -/
theorem c3_counterexample :
    (componentHandler envRenderErr confProd [] reqRen []).1 =
      .response 200 (.componentRendered
        { href := "http://host/x/", type := "oc-component"
          version := "1.0.0", requestVersion := "" } none) ∧
    (componentHandler envCvErr confProd [] reqRen []).1 =
      .crash "TypeError: vm.runInNewContext template text is undefined" :=
  ⟨by decide, by decide⟩

/-- Claim C3 (amended): data-resolution failures are surfaced as 502 —
a failing data-provider source fetch yields 502 "component resolving
error" and a provider reporting failure through its callback yields 502
"component data resolving error" — but template-resolution failures are
not: a failing compiled-view fetch is unhandled and escapes as an
uncaught TypeError (and a failing render call yields a 200, per the
counterexample). -/
theorem c3_amended_data_502_template_unhandled
    (E₁ : ComponentEnv) (conf₁ : ResConf) (deps₁ : List String) (req₁ : ComponentRequest)
    (cache₁ : Cache) (component₁ : Component) (e₁ : String)
    (hgc₁ : E₁.getComponent req₁.componentName (req₁.componentVersion.getD "") = .ok component₁)
    (hval₁ : (E₁.validateComponentParameters (paramsOf E₁ req₁ component₁)
      component₁.oc.parameters).isValid = true)
    (hdp₁ : component₁.oc.files.dataProvider = true)
    (hmiss₁ : cacheHit (cacheGet cache₁ (serverKey component₁)) conf₁.localMode = none)
    (hg₁ : E₁.getDataProvider component₁.name component₁.version = .error e₁)
    (E₂ : ComponentEnv) (conf₂ : ResConf) (deps₂ : List String) (req₂ : ComponentRequest)
    (cache₂ : Cache) (component₂ : Component) (src₂ : String) (tok₂ : Nat)
    (hgc₂ : E₂.getComponent req₂.componentName (req₂.componentVersion.getD "") = .ok component₂)
    (hval₂ : (E₂.validateComponentParameters (paramsOf E₂ req₂ component₂)
      component₂.oc.parameters).isValid = true)
    (hdp₂ : component₂.oc.files.dataProvider = true)
    (hmiss₂ : cacheHit (cacheGet cache₂ (serverKey component₂)) conf₂.localMode = none)
    (hg₂ : E₂.getDataProvider component₂.name component₂.version = .ok src₂)
    (hvm₂ : E₂.runDataVm src₂ (dataContext deps₂ conf₂.localMode) = .ok (some tok₂))
    (hinv₂ : E₂.invokeProvider tok₂
      (reqObjOf E₂ conf₂ (paramsOf E₂ req₂ component₂) req₂.acceptLanguage component₂) =
      .callback .fail)
    (E₃ : ComponentEnv) (conf₃ : ResConf) (deps₃ : List String) (req₃ : ComponentRequest)
    (cache₃ : Cache) (component₃ : Component) (e₃ : String)
    (hgc₃ : E₃.getComponent req₃.componentName (req₃.componentVersion.getD "") = .ok component₃)
    (hval₃ : (E₃.validateComponentParameters (paramsOf E₃ req₃ component₃)
      component₃.oc.parameters).isValid = true)
    (hdp₃ : component₃.oc.files.dataProvider = false)
    (hacc₃ : req₃.accept = none)
    (hmiss₃ : cacheHit (cacheGet cache₃ (templateKey component₃)) conf₃.localMode = none)
    (hcv₃ : E₃.getCompiledView component₃.name component₃.version = .error e₃) :
    (componentHandler E₁ conf₁ deps₁ req₁ cache₁).1 =
      .response 502 (.errorField "component resolving error") ∧
    (componentHandler E₂ conf₂ deps₂ req₂ cache₂).1 =
      .response 502 (.errorField "component data resolving error") ∧
    (componentHandler E₃ conf₃ deps₃ req₃ cache₃).1 =
      .crash "TypeError: vm.runInNewContext template text is undefined" := by
  refine ⟨?_, ?_, ?_⟩
  · simp [componentHandler, hgc₁, hval₁, dataPhase, hdp₁, hmiss₁, hg₁]
  · simp [componentHandler, hgc₂, hval₂, dataPhase, hdp₂, hmiss₂, hg₂, hvm₂, hinv₂,
      returnComponent]
  · simp [componentHandler, hgc₃, hval₃, dataPhase, hdp₃, returnComponent, hacc₃, hmiss₃, hcv₃]

/-- Witness for the amended C3 at three concrete failing environments. -/
theorem c3_witness :
    envDpErr.getDataProvider compA.name compA.version = .error "dp gone" ∧
    envFail.invokeProvider 7
      (reqObjOf envFail confProd (paramsOf envFail reqRen compA) reqRen.acceptLanguage compA) =
      .callback .fail ∧
    envCvErrB.getCompiledView compB.name compB.version = .error "cdn down" ∧
    ((componentHandler envDpErr confProd [] reqRen []).1 =
      .response 502 (.errorField "component resolving error") ∧
    (componentHandler envFail confProd [] reqRen []).1 =
      .response 502 (.errorField "component data resolving error") ∧
    (componentHandler envCvErrB confProd [] reqB []).1 =
      .crash "TypeError: vm.runInNewContext template text is undefined") :=
  ⟨rfl, rfl, rfl,
    c3_amended_data_502_template_unhandled
      envDpErr confProd [] reqRen [] compA "dp gone" rfl rfl rfl rfl rfl
      envFail confProd [] reqRen [] compA "dpsource" 7 rfl rfl rfl rfl rfl rfl rfl
      envCvErrB confProd [] reqB [] compB "cdn down" rfl rfl rfl rfl rfl rfl⟩

/-- The two artifact-cache keys of one component are distinct. -/
theorem serverKey_ne_templateKey (component : Component) :
    serverKey component ≠ templateKey component := by
  intro h
  have h2 := congrArg String.length h
  simp [serverKey, templateKey, String.length_append] at h2
  simp [String.length] at h2

/-- Claim C4: for every artifact cache key (component name/version and
artifact kind), in production mode a truthy cached entry is used as-is
and the compile step (repository fetch plus vm execution) is not
re-invoked; on a miss the artifact is compiled, stored under the key and
used; in development (local) mode the compile step runs on every request
and the stored entry is overwritten.  Five scenarios: production
data-provider hit, production data-provider miss, development
data-provider recompile, production template hit, development template
recompile. -/
theorem c4_artifact_cache_semantics
    (E₁ : ComponentEnv) (conf₁ : ResConf) (deps₁ : List String) (req₁ : ComponentRequest)
    (cache₁ : Cache) (component₁ : Component) (tok₁ : Nat)
    (hgc₁ : E₁.getComponent req₁.componentName (req₁.componentVersion.getD "") = .ok component₁)
    (hval₁ : (E₁.validateComponentParameters (paramsOf E₁ req₁ component₁)
      component₁.oc.parameters).isValid = true)
    (hdp₁ : component₁.oc.files.dataProvider = true)
    (hhit₁ : cacheHit (cacheGet cache₁ (serverKey component₁)) conf₁.localMode = some tok₁)
    (E₂ : ComponentEnv) (conf₂ : ResConf) (deps₂ : List String) (req₂ : ComponentRequest)
    (cache₂ : Cache) (component₂ : Component) (src₂ : String) (tok₂ : Nat)
    (hgc₂ : E₂.getComponent req₂.componentName (req₂.componentVersion.getD "") = .ok component₂)
    (hval₂ : (E₂.validateComponentParameters (paramsOf E₂ req₂ component₂)
      component₂.oc.parameters).isValid = true)
    (hdp₂ : component₂.oc.files.dataProvider = true)
    (hmiss₂ : cacheHit (cacheGet cache₂ (serverKey component₂)) conf₂.localMode = none)
    (hg₂ : E₂.getDataProvider component₂.name component₂.version = .ok src₂)
    (hvm₂ : E₂.runDataVm src₂ (dataContext deps₂ conf₂.localMode) = .ok (some tok₂))
    (E₃ : ComponentEnv) (conf₃ : ResConf) (deps₃ : List String) (req₃ : ComponentRequest)
    (cache₃ : Cache) (component₃ : Component) (src₃ : String) (tok₃ : Nat)
    (hgc₃ : E₃.getComponent req₃.componentName (req₃.componentVersion.getD "") = .ok component₃)
    (hval₃ : (E₃.validateComponentParameters (paramsOf E₃ req₃ component₃)
      component₃.oc.parameters).isValid = true)
    (hdp₃ : component₃.oc.files.dataProvider = true)
    (hlocal₃ : conf₃.localMode = true)
    (hg₃ : E₃.getDataProvider component₃.name component₃.version = .ok src₃)
    (hvm₃ : E₃.runDataVm src₃ (dataContext deps₃ conf₃.localMode) = .ok (some tok₃))
    (E₄ : ComponentEnv) (conf₄ : ResConf) (deps₄ : List String) (req₄ : ComponentRequest)
    (cache₄ : Cache) (component₄ : Component) (t₄ : Nat)
    (hgc₄ : E₄.getComponent req₄.componentName (req₄.componentVersion.getD "") = .ok component₄)
    (hval₄ : (E₄.validateComponentParameters (paramsOf E₄ req₄ component₄)
      component₄.oc.parameters).isValid = true)
    (hdp₄ : component₄.oc.files.dataProvider = false)
    (hacc₄ : req₄.accept = none)
    (hhit₄ : cacheHit (cacheGet cache₄ (templateKey component₄)) conf₄.localMode = some t₄)
    (E₅ : ComponentEnv) (conf₅ : ResConf) (deps₅ : List String) (req₅ : ComponentRequest)
    (cache₅ : Cache) (component₅ : Component) (text₅ : String) (comps₅ : List (String × Nat))
    (hgc₅ : E₅.getComponent req₅.componentName (req₅.componentVersion.getD "") = .ok component₅)
    (hval₅ : (E₅.validateComponentParameters (paramsOf E₅ req₅ component₅)
      component₅.oc.parameters).isValid = true)
    (hdp₅ : component₅.oc.files.dataProvider = false)
    (hacc₅ : req₅.accept = none)
    (hlocal₅ : conf₅.localMode = true)
    (hcv₅ : E₅.getCompiledView component₅.name component₅.version = .ok text₅)
    (hvt₅ : E₅.runTemplateVm text₅ templateContext = .ok (some comps₅))
    (E₆ : ComponentEnv) (conf₆ : ResConf) (deps₆ : List String) (req₆ : ComponentRequest)
    (cache₆ : Cache) (component₆ : Component) (text₆ : String) (comps₆ : List (String × Nat))
    (hgc₆ : E₆.getComponent req₆.componentName (req₆.componentVersion.getD "") = .ok component₆)
    (hval₆ : (E₆.validateComponentParameters (paramsOf E₆ req₆ component₆)
      component₆.oc.parameters).isValid = true)
    (hdp₆ : component₆.oc.files.dataProvider = false)
    (hacc₆ : req₆.accept = none)
    (hmiss₆ : cacheHit (cacheGet cache₆ (templateKey component₆)) conf₆.localMode = none)
    (hcv₆ : E₆.getCompiledView component₆.name component₆.version = .ok text₆)
    (hvt₆ : E₆.runTemplateVm text₆ templateContext = .ok (some comps₆)) :
    (Ev.getDataProvider component₁.name component₁.version ∉
        (componentHandler E₁ conf₁ deps₁ req₁ cache₁).2.1 ∧
      (∀ ctx, Ev.vmRunData ctx ∉ (componentHandler E₁ conf₁ deps₁ req₁ cache₁).2.1) ∧
      Ev.invokeProvider tok₁ (reqObjOf E₁ conf₁ (paramsOf E₁ req₁ component₁)
        req₁.acceptLanguage component₁) ∈ (componentHandler E₁ conf₁ deps₁ req₁ cache₁).2.1) ∧
    (Ev.getDataProvider component₂.name component₂.version ∈
        (componentHandler E₂ conf₂ deps₂ req₂ cache₂).2.1 ∧
      Ev.cacheSet (serverKey component₂) (some tok₂) ∈
        (componentHandler E₂ conf₂ deps₂ req₂ cache₂).2.1 ∧
      Ev.invokeProvider tok₂ (reqObjOf E₂ conf₂ (paramsOf E₂ req₂ component₂)
        req₂.acceptLanguage component₂) ∈ (componentHandler E₂ conf₂ deps₂ req₂ cache₂).2.1 ∧
      cacheGet (componentHandler E₂ conf₂ deps₂ req₂ cache₂).2.2 (serverKey component₂) =
        some (some tok₂)) ∧
    (Ev.getDataProvider component₃.name component₃.version ∈
        (componentHandler E₃ conf₃ deps₃ req₃ cache₃).2.1 ∧
      cacheGet (componentHandler E₃ conf₃ deps₃ req₃ cache₃).2.2 (serverKey component₃) =
        some (some tok₃)) ∧
    (Ev.getCompiledView component₄.name component₄.version ∉
        (componentHandler E₄ conf₄ deps₄ req₄ cache₄).2.1 ∧
      (∀ ctx, Ev.vmRunTemplate ctx ∉ (componentHandler E₄ conf₄ deps₄ req₄ cache₄).2.1) ∧
      Ev.renderTemplate (some t₄) .emptyObject ∈
        (componentHandler E₄ conf₄ deps₄ req₄ cache₄).2.1) ∧
    (Ev.getCompiledView component₅.name component₅.version ∈
        (componentHandler E₅ conf₅ deps₅ req₅ cache₅).2.1 ∧
      cacheGet (componentHandler E₅ conf₅ deps₅ req₅ cache₅).2.2 (templateKey component₅) =
        some (assocGet comps₅ component₅.oc.files.template.hashKey)) ∧
    (Ev.getCompiledView component₆.name component₆.version ∈
        (componentHandler E₆ conf₆ deps₆ req₆ cache₆).2.1 ∧
      Ev.cacheSet (templateKey component₆)
          (assocGet comps₆ component₆.oc.files.template.hashKey) ∈
        (componentHandler E₆ conf₆ deps₆ req₆ cache₆).2.1 ∧
      cacheGet (componentHandler E₆ conf₆ deps₆ req₆ cache₆).2.2 (templateKey component₆) =
        some (assocGet comps₆ component₆.oc.files.template.hashKey) ∧
      Ev.renderTemplate (assocGet comps₆ component₆.oc.files.template.hashKey) .emptyObject ∈
        (componentHandler E₆ conf₆ deps₆ req₆ cache₆).2.1) := by
  refine ⟨?_, ?_, ?_, ?_, ?_, ?_⟩
  · -- production data-provider hit
    rcases hi : E₁.invokeProvider tok₁ (reqObjOf E₁ conf₁ (paramsOf E₁ req₁ component₁)
        req₁.acceptLanguage component₁) with a | m
    · have htr : (componentHandler E₁ conf₁ deps₁ req₁ cache₁).2.1 =
          (returnComponent E₁ conf₁ req₁.accept (req₁.componentVersion.getD "")
            (paramsOf E₁ req₁ component₁) component₁ a cache₁
            [Ev.getComponent req₁.componentName (req₁.componentVersion.getD ""),
             Ev.invokeProvider tok₁ (reqObjOf E₁ conf₁ (paramsOf E₁ req₁ component₁)
               req₁.acceptLanguage component₁)]).2.1 := by
        simp [componentHandler, hgc₁, hval₁, dataPhase, hdp₁, hhit₁, hi]
      rw [htr]
      refine ⟨?_, ?_, ?_⟩
      · intro hmem
        rcases (returnComponent_spec E₁ conf₁ req₁.accept _ _ _ _ _ _).1 _ hmem with h | h
        · simp at h
        · simp [rcNewEv] at h
      · intro ctx hmem
        rcases (returnComponent_spec E₁ conf₁ req₁.accept _ _ _ _ _ _).1 _ hmem with h | h
        · simp at h
        · simp [rcNewEv] at h
      · exact returnComponent_evs_mem _ _ _ _ _ _ _ _ _ _ (by simp)
    · have htr : (componentHandler E₁ conf₁ deps₁ req₁ cache₁).2.1 =
          [Ev.getComponent req₁.componentName (req₁.componentVersion.getD ""),
           Ev.invokeProvider tok₁ (reqObjOf E₁ conf₁ (paramsOf E₁ req₁ component₁)
             req₁.acceptLanguage component₁)] := by
        simp [componentHandler, hgc₁, hval₁, dataPhase, hdp₁, hhit₁, hi]
      rw [htr]
      refine ⟨by simp, by simp, by simp⟩
  · -- production data-provider miss
    rcases hi : E₂.invokeProvider tok₂ (reqObjOf E₂ conf₂ (paramsOf E₂ req₂ component₂)
        req₂.acceptLanguage component₂) with a | m
    · have htr : (componentHandler E₂ conf₂ deps₂ req₂ cache₂).2.1 =
          (returnComponent E₂ conf₂ req₂.accept (req₂.componentVersion.getD "")
            (paramsOf E₂ req₂ component₂) component₂ a
            (cacheSet cache₂ (serverKey component₂) (some tok₂))
            [Ev.getComponent req₂.componentName (req₂.componentVersion.getD ""),
             Ev.getDataProvider component₂.name component₂.version,
             Ev.vmRunData (dataContext deps₂ conf₂.localMode),
             Ev.cacheSet (serverKey component₂) (some tok₂),
             Ev.invokeProvider tok₂ (reqObjOf E₂ conf₂ (paramsOf E₂ req₂ component₂)
               req₂.acceptLanguage component₂)]).2.1 := by
        simp [componentHandler, hgc₂, hval₂, dataPhase, hdp₂, hmiss₂, hg₂, hvm₂, hi]
      have hca : (componentHandler E₂ conf₂ deps₂ req₂ cache₂).2.2 =
          (returnComponent E₂ conf₂ req₂.accept (req₂.componentVersion.getD "")
            (paramsOf E₂ req₂ component₂) component₂ a
            (cacheSet cache₂ (serverKey component₂) (some tok₂))
            [Ev.getComponent req₂.componentName (req₂.componentVersion.getD ""),
             Ev.getDataProvider component₂.name component₂.version,
             Ev.vmRunData (dataContext deps₂ conf₂.localMode),
             Ev.cacheSet (serverKey component₂) (some tok₂),
             Ev.invokeProvider tok₂ (reqObjOf E₂ conf₂ (paramsOf E₂ req₂ component₂)
               req₂.acceptLanguage component₂)]).2.2 := by
        simp [componentHandler, hgc₂, hval₂, dataPhase, hdp₂, hmiss₂, hg₂, hvm₂, hi]
      rw [htr, hca]
      refine ⟨?_, ?_, ?_, ?_⟩
      · exact returnComponent_evs_mem _ _ _ _ _ _ _ _ _ _ (by simp)
      · exact returnComponent_evs_mem _ _ _ _ _ _ _ _ _ _ (by simp)
      · exact returnComponent_evs_mem _ _ _ _ _ _ _ _ _ _ (by simp)
      · rw [returnComponent_cacheGet _ _ _ _ _ _ _ _ _ _ (serverKey_ne_templateKey component₂)]
        simp [cacheGet, cacheSet, assocGet]
    · have htr : (componentHandler E₂ conf₂ deps₂ req₂ cache₂).2.1 =
          [Ev.getComponent req₂.componentName (req₂.componentVersion.getD ""),
           Ev.getDataProvider component₂.name component₂.version,
           Ev.vmRunData (dataContext deps₂ conf₂.localMode),
           Ev.cacheSet (serverKey component₂) (some tok₂),
           Ev.invokeProvider tok₂ (reqObjOf E₂ conf₂ (paramsOf E₂ req₂ component₂)
             req₂.acceptLanguage component₂)] := by
        simp [componentHandler, hgc₂, hval₂, dataPhase, hdp₂, hmiss₂, hg₂, hvm₂, hi]
      have hca : (componentHandler E₂ conf₂ deps₂ req₂ cache₂).2.2 =
          cacheSet cache₂ (serverKey component₂) (some tok₂) := by
        simp [componentHandler, hgc₂, hval₂, dataPhase, hdp₂, hmiss₂, hg₂, hvm₂, hi]
      rw [htr, hca]
      refine ⟨by simp, by simp, by simp, by simp [cacheGet, cacheSet, assocGet]⟩
  · -- development data-provider recompile
    rw [hlocal₃] at hvm₃
    rcases hi : E₃.invokeProvider tok₃ (reqObjOf E₃ conf₃ (paramsOf E₃ req₃ component₃)
        req₃.acceptLanguage component₃) with a | m
    · have htr : (componentHandler E₃ conf₃ deps₃ req₃ cache₃).2.1 =
          (returnComponent E₃ conf₃ req₃.accept (req₃.componentVersion.getD "")
            (paramsOf E₃ req₃ component₃) component₃ a
            (cacheSet cache₃ (serverKey component₃) (some tok₃))
            [Ev.getComponent req₃.componentName (req₃.componentVersion.getD ""),
             Ev.getDataProvider component₃.name component₃.version,
             Ev.vmRunData (dataContext deps₃ conf₃.localMode),
             Ev.cacheSet (serverKey component₃) (some tok₃),
             Ev.invokeProvider tok₃ (reqObjOf E₃ conf₃ (paramsOf E₃ req₃ component₃)
               req₃.acceptLanguage component₃)]).2.1 := by
        simp [componentHandler, hgc₃, hval₃, dataPhase, hdp₃, hlocal₃, cacheHit_local,
          hg₃, hvm₃, hi]
      have hca : (componentHandler E₃ conf₃ deps₃ req₃ cache₃).2.2 =
          (returnComponent E₃ conf₃ req₃.accept (req₃.componentVersion.getD "")
            (paramsOf E₃ req₃ component₃) component₃ a
            (cacheSet cache₃ (serverKey component₃) (some tok₃))
            [Ev.getComponent req₃.componentName (req₃.componentVersion.getD ""),
             Ev.getDataProvider component₃.name component₃.version,
             Ev.vmRunData (dataContext deps₃ conf₃.localMode),
             Ev.cacheSet (serverKey component₃) (some tok₃),
             Ev.invokeProvider tok₃ (reqObjOf E₃ conf₃ (paramsOf E₃ req₃ component₃)
               req₃.acceptLanguage component₃)]).2.2 := by
        simp [componentHandler, hgc₃, hval₃, dataPhase, hdp₃, hlocal₃, cacheHit_local,
          hg₃, hvm₃, hi]
      rw [htr, hca]
      refine ⟨?_, ?_⟩
      · exact returnComponent_evs_mem _ _ _ _ _ _ _ _ _ _ (by simp)
      · rw [returnComponent_cacheGet _ _ _ _ _ _ _ _ _ _ (serverKey_ne_templateKey component₃)]
        simp [cacheGet, cacheSet, assocGet]
    · have htr : (componentHandler E₃ conf₃ deps₃ req₃ cache₃).2.1 =
          [Ev.getComponent req₃.componentName (req₃.componentVersion.getD ""),
           Ev.getDataProvider component₃.name component₃.version,
           Ev.vmRunData (dataContext deps₃ conf₃.localMode),
           Ev.cacheSet (serverKey component₃) (some tok₃),
           Ev.invokeProvider tok₃ (reqObjOf E₃ conf₃ (paramsOf E₃ req₃ component₃)
             req₃.acceptLanguage component₃)] := by
        simp [componentHandler, hgc₃, hval₃, dataPhase, hdp₃, hlocal₃, cacheHit_local,
          hg₃, hvm₃, hi]
      have hca : (componentHandler E₃ conf₃ deps₃ req₃ cache₃).2.2 =
          cacheSet cache₃ (serverKey component₃) (some tok₃) := by
        simp [componentHandler, hgc₃, hval₃, dataPhase, hdp₃, hlocal₃, cacheHit_local,
          hg₃, hvm₃, hi]
      rw [htr, hca]
      refine ⟨by simp, by simp [cacheGet, cacheSet, assocGet]⟩
  · -- production template hit
    rcases hr : E₄.renderTemplate (some t₄) .emptyObject
        (renderOptionsOf E₄ conf₄ (req₄.componentVersion.getD "")
          (paramsOf E₄ req₄ component₄) component₄) with e | html
    all_goals {
      have htr : (componentHandler E₄ conf₄ deps₄ req₄ cache₄).2.1 =
          [Ev.getComponent req₄.componentName (req₄.componentVersion.getD ""),
           Ev.renderTemplate (some t₄) .emptyObject] := by
        simp [componentHandler, hgc₄, hval₄, dataPhase, hdp₄, returnComponent, hacc₄,
          hhit₄, hr]
      rw [htr]
      refine ⟨by simp, by simp, by simp⟩
    }
  · -- development template recompile
    rcases hr : E₅.renderTemplate (assocGet comps₅ component₅.oc.files.template.hashKey)
        .emptyObject (renderOptionsOf E₅ conf₅ (req₅.componentVersion.getD "")
          (paramsOf E₅ req₅ component₅) component₅) with e | html
    all_goals {
      have htr : (componentHandler E₅ conf₅ deps₅ req₅ cache₅).2.1 =
          [Ev.getComponent req₅.componentName (req₅.componentVersion.getD ""),
           Ev.getCompiledView component₅.name component₅.version,
           Ev.vmRunTemplate templateContext,
           Ev.cacheSet (templateKey component₅)
             (assocGet comps₅ component₅.oc.files.template.hashKey),
           Ev.renderTemplate (assocGet comps₅ component₅.oc.files.template.hashKey)
             .emptyObject] := by
        simp [componentHandler, hgc₅, hval₅, dataPhase, hdp₅, returnComponent, hacc₅,
          hlocal₅, cacheHit_local, hcv₅, hvt₅, hr]
      have hca : (componentHandler E₅ conf₅ deps₅ req₅ cache₅).2.2 =
          cacheSet cache₅ (templateKey component₅)
            (assocGet comps₅ component₅.oc.files.template.hashKey) := by
        simp [componentHandler, hgc₅, hval₅, dataPhase, hdp₅, returnComponent, hacc₅,
          hlocal₅, cacheHit_local, hcv₅, hvt₅, hr]
      rw [htr, hca]
      refine ⟨by simp, by simp [cacheGet, cacheSet, assocGet]⟩
    }
  · -- production template miss
    rcases hr : E₆.renderTemplate (assocGet comps₆ component₆.oc.files.template.hashKey)
        .emptyObject (renderOptionsOf E₆ conf₆ (req₆.componentVersion.getD "")
          (paramsOf E₆ req₆ component₆) component₆) with e | html
    all_goals {
      have htr : (componentHandler E₆ conf₆ deps₆ req₆ cache₆).2.1 =
          [Ev.getComponent req₆.componentName (req₆.componentVersion.getD ""),
           Ev.getCompiledView component₆.name component₆.version,
           Ev.vmRunTemplate templateContext,
           Ev.cacheSet (templateKey component₆)
             (assocGet comps₆ component₆.oc.files.template.hashKey),
           Ev.renderTemplate (assocGet comps₆ component₆.oc.files.template.hashKey)
             .emptyObject] := by
        simp [componentHandler, hgc₆, hval₆, dataPhase, hdp₆, returnComponent, hacc₆,
          hmiss₆, hcv₆, hvt₆, hr]
      have hca : (componentHandler E₆ conf₆ deps₆ req₆ cache₆).2.2 =
          cacheSet cache₆ (templateKey component₆)
            (assocGet comps₆ component₆.oc.files.template.hashKey) := by
        simp [componentHandler, hgc₆, hval₆, dataPhase, hdp₆, returnComponent, hacc₆,
          hmiss₆, hcv₆, hvt₆, hr]
      rw [htr, hca]
      refine ⟨by simp, by simp, by simp [cacheGet, cacheSet, assocGet], by simp⟩
    }

/-- A cache already holding a compiled data-provider for `compA`. -/
def cacheWithServer : Cache := [("x/1.0.0/server.js", some 42)]

/-- A cache already holding a compiled template for `compB`. -/
def cacheWithTemplate : Cache := [("banner/2.0.0/template.js", some 99)]

/-- Witness for C4 at concrete runs of all five cache scenarios. -/
theorem c4_witness :
    (envA.getComponent reqRen.componentName (reqRen.componentVersion.getD "") = .ok compA ∧
      compA.oc.files.dataProvider = true ∧
      cacheHit (cacheGet cacheWithServer (serverKey compA)) confProd.localMode = some 42 ∧
      cacheHit (cacheGet [] (serverKey compA)) confProd.localMode = none ∧
      envA.runDataVm "dpsource" (dataContext [] confProd.localMode) = .ok (some 7) ∧
      confDev.localMode = true ∧
      envB.getComponent reqB.componentName (reqB.componentVersion.getD "") = .ok compB ∧
      compB.oc.files.dataProvider = false ∧
      cacheHit (cacheGet cacheWithTemplate (templateKey compB)) confProd.localMode = some 99 ∧
      cacheHit (cacheGet [] (templateKey compB)) confProd.localMode = none ∧
      envB.getCompiledView compB.name compB.version = .ok "tsource" ∧
      envB.runTemplateVm "tsource" templateContext = .ok (some [("kb", 11)])) ∧
    ((Ev.getDataProvider compA.name compA.version ∉
        (componentHandler envA confProd [] reqRen cacheWithServer).2.1 ∧
      (∀ ctx, Ev.vmRunData ctx ∉ (componentHandler envA confProd [] reqRen cacheWithServer).2.1) ∧
      Ev.invokeProvider 42 (reqObjOf envA confProd (paramsOf envA reqRen compA)
        reqRen.acceptLanguage compA) ∈
        (componentHandler envA confProd [] reqRen cacheWithServer).2.1) ∧
    (Ev.getDataProvider compA.name compA.version ∈
        (componentHandler envA confProd [] reqRen []).2.1 ∧
      Ev.cacheSet (serverKey compA) (some 7) ∈ (componentHandler envA confProd [] reqRen []).2.1 ∧
      Ev.invokeProvider 7 (reqObjOf envA confProd (paramsOf envA reqRen compA)
        reqRen.acceptLanguage compA) ∈ (componentHandler envA confProd [] reqRen []).2.1 ∧
      cacheGet (componentHandler envA confProd [] reqRen []).2.2 (serverKey compA) =
        some (some 7)) ∧
    (Ev.getDataProvider compA.name compA.version ∈
        (componentHandler envA confDev [] reqRen cacheWithServer).2.1 ∧
      cacheGet (componentHandler envA confDev [] reqRen cacheWithServer).2.2 (serverKey compA) =
        some (some 7)) ∧
    (Ev.getCompiledView compB.name compB.version ∉
        (componentHandler envB confProd [] reqB cacheWithTemplate).2.1 ∧
      (∀ ctx, Ev.vmRunTemplate ctx ∉
        (componentHandler envB confProd [] reqB cacheWithTemplate).2.1) ∧
      Ev.renderTemplate (some 99) .emptyObject ∈
        (componentHandler envB confProd [] reqB cacheWithTemplate).2.1) ∧
    (Ev.getCompiledView compB.name compB.version ∈
        (componentHandler envB confDev [] reqB []).2.1 ∧
      cacheGet (componentHandler envB confDev [] reqB []).2.2 (templateKey compB) =
        some (assocGet [("kb", 11)] compB.oc.files.template.hashKey)) ∧
    (Ev.getCompiledView compB.name compB.version ∈
        (componentHandler envB confProd [] reqB []).2.1 ∧
      Ev.cacheSet (templateKey compB)
          (assocGet [("kb", 11)] compB.oc.files.template.hashKey) ∈
        (componentHandler envB confProd [] reqB []).2.1 ∧
      cacheGet (componentHandler envB confProd [] reqB []).2.2 (templateKey compB) =
        some (assocGet [("kb", 11)] compB.oc.files.template.hashKey) ∧
      Ev.renderTemplate (assocGet [("kb", 11)] compB.oc.files.template.hashKey) .emptyObject ∈
        (componentHandler envB confProd [] reqB []).2.1)) :=
  ⟨⟨rfl, rfl, rfl, rfl, rfl, rfl, rfl, rfl, rfl, rfl, rfl, rfl⟩,
    c4_artifact_cache_semantics
      envA confProd [] reqRen cacheWithServer compA 42 rfl rfl rfl rfl
      envA confProd [] reqRen [] compA "dpsource" 7 rfl rfl rfl rfl rfl rfl
      envA confDev [] reqRen cacheWithServer compA "dpsource" 7 rfl rfl rfl rfl rfl rfl
      envB confProd [] reqB cacheWithTemplate compB 99 rfl rfl rfl rfl rfl
      envB confDev [] reqB [] compB "tsource" [("kb", 11)] rfl rfl rfl rfl rfl rfl rfl
      envB confProd [] reqB [] compB "tsource" [("kb", 11)] rfl rfl rfl rfl rfl rfl rfl⟩

/-- When the metadata lookup succeeds, every response the handler can
produce is the 400 validation error, the 502 data-fetch error, or a
`returnComponent` body satisfying `rcBodyOk`. -/
theorem componentHandler_result_shape (E : ComponentEnv) (conf : ResConf) (deps : List String)
    (req : ComponentRequest) (cache : Cache) (component : Component)
    (hgc : E.getComponent req.componentName (req.componentVersion.getD "") = .ok component) :
    ∀ st b, (componentHandler E conf deps req cache).1 = .response st b →
      (st = 400 ∧ ∃ m, b = .errorField m) ∨
      (st = 502 ∧ b = .errorField "component resolving error") ∨
      ∃ arg, rcBodyOk E conf (req.componentVersion.getD "") (paramsOf E req component)
        component arg st b := by
  intro st b h
  by_cases hval : (E.validateComponentParameters (paramsOf E req component)
      component.oc.parameters).isValid
  · have hred : componentHandler E conf deps req cache =
        (match dataPhase E conf deps req (paramsOf E req component) component cache
            [Ev.getComponent req.componentName (req.componentVersion.getD "")] with
          | .early r evs c => (r, evs, c)
          | .proceed arg c evs =>
            returnComponent E conf req.accept (req.componentVersion.getD "")
              (paramsOf E req component) component arg c evs) := by
      simp [componentHandler, hgc, hval]
    rw [hred] at h
    rcases hdd : dataPhase E conf deps req (paramsOf E req component) component cache
        [Ev.getComponent req.componentName (req.componentVersion.getD "")]
        with ⟨r, evs, c⟩ | ⟨arg, c, evs⟩
    · rw [hdd] at h
      simp only [] at h
      rcases (dataPhase_spec E conf deps req (paramsOf E req component) component cache
          [Ev.getComponent req.componentName (req.componentVersion.getD "")]).2 r evs c hdd
          with ⟨m, rfl⟩ | rfl
      · simp at h
      · simp at h
        exact Or.inr (Or.inl ⟨h.1.symm, h.2.symm⟩)
    · rw [hdd] at h
      simp only [] at h
      exact Or.inr (Or.inr ⟨arg, (returnComponent_spec E conf req.accept
        (req.componentVersion.getD "") (paramsOf E req component) component arg c evs).2 st b h⟩)
  · have hred : componentHandler E conf deps req cache =
        (.response 400 (.errorField (E.validateComponentParameters (paramsOf E req component)
            component.oc.parameters).errorsMessage),
          [Ev.getComponent req.componentName (req.componentVersion.getD "")], cache) := by
      simp [componentHandler, hgc, hval]
    rw [hred] at h
    simp at h
    exact Or.inl ⟨h.1.symm, _, h.2.symm⟩

/-- A component whose stored version is `2.0.0`, resolved for any
requested version string. -/
def compV : Component :=
  { name := "v", version := "2.0.0"
    oc := { parameters := "schema"
            files := { template := { type := "jade", hashKey := "kv" }
                       dataProvider := false } } }

def envV : ComponentEnv :=
  { envA with
    getComponent := fun n _ => if n = "v" then .ok compV else .error "not found"
    runTemplateVm := fun _ _ => .ok (some [("kv", 5)]) }

/-- The same component requested without a version… -/
def reqV1 : ComponentRequest :=
  { componentName := "v", componentVersion := none
    query := [], accept := some "application/vnd.oc.prerendered+json", acceptLanguage := none }

/-- …and with the exact version. -/
def reqV2 : ComponentRequest :=
  { componentName := "v", componentVersion := some "2.0.0"
    query := [], accept := some "application/vnd.oc.prerendered+json", acceptLanguage := none }

/-- Claim C10: in every successful render response the `href` is built
from the originally requested version string (empty when omitted) and
the sanitised parameters, while `version` carries the resolved version
and `requestVersion` the raw requested string; two requests resolving to
the same concrete version can therefore return different hrefs. -/
theorem c10_href_uses_requested_version
    (E : ComponentEnv) (conf : ResConf) (deps : List String)
    (req : ComponentRequest) (cache : Cache) (component : Component)
    (hgc : E.getComponent req.componentName (req.componentVersion.getD "") = .ok component) :
    (∀ st base d tr,
      (componentHandler E conf deps req cache).1 = .response st (.componentPre base d tr) →
      base.href = E.urlBuilderComponent component.name (req.componentVersion.getD "")
        (paramsOf E req component) conf.baseUrl ∧
      base.version = component.version ∧
      base.requestVersion = req.componentVersion.getD "") ∧
    (∀ st base hOpt,
      (componentHandler E conf deps req cache).1 = .response st (.componentRendered base hOpt) →
      base.href = E.urlBuilderComponent component.name (req.componentVersion.getD "")
        (paramsOf E req component) conf.baseUrl ∧
      base.version = component.version ∧
      base.requestVersion = req.componentVersion.getD "") ∧
    ((componentHandler envV confProd [] reqV1 []).1 =
      .response 200 (.componentPre
        { href := "http://host/v/", type := "oc-component"
          version := "2.0.0", requestVersion := "" }
        .emptyObject
        { src := "https://cdn/v/2.0.0/template.js", type := "jade", key := "kv" }) ∧
    (componentHandler envV confProd [] reqV2 []).1 =
      .response 200 (.componentPre
        { href := "http://host/v/2.0.0", type := "oc-component"
          version := "2.0.0", requestVersion := "2.0.0" }
        .emptyObject
        { src := "https://cdn/v/2.0.0/template.js", type := "jade", key := "kv" }) ∧
    ("http://host/v/" : String) ≠ "http://host/v/2.0.0") := by
  refine ⟨?_, ?_, by decide, by decide, by decide⟩
  · intro st base d tr h
    rcases componentHandler_result_shape E conf deps req cache component hgc st _ h
        with ⟨-, m, hm⟩ | ⟨-, hm⟩ | ⟨arg, hb⟩
    · simp at hm
    · simp at hm
    · simp only [rcBodyOk] at hb
      obtain ⟨-, rfl, -, -⟩ := hb
      simp [mkBase]
  · intro st base hOpt h
    rcases componentHandler_result_shape E conf deps req cache component hgc st _ h
        with ⟨-, m, hm⟩ | ⟨-, hm⟩ | ⟨arg, hb⟩
    · simp at hm
    · simp at hm
    · simp only [rcBodyOk] at hb
      obtain ⟨-, rfl⟩ := hb
      simp [mkBase]

/-- Witness for C10 at the concrete environment. -/
theorem c10_witness :
    envA.getComponent reqRen.componentName (reqRen.componentVersion.getD "") = .ok compA ∧
    (∀ st base d tr,
      (componentHandler envA confProd [] reqRen []).1 = .response st (.componentPre base d tr) →
      base.href = envA.urlBuilderComponent compA.name (reqRen.componentVersion.getD "")
        (paramsOf envA reqRen compA) confProd.baseUrl ∧
      base.version = compA.version ∧
      base.requestVersion = reqRen.componentVersion.getD "") :=
  ⟨rfl, fun st base d tr h =>
    (c10_href_uses_requested_version envA confProd [] reqRen [] compA rfl).1 st base d tr h⟩

/-- Claim C9: every sandboxed execution sees only the explicitly
constructed binding set.  Every data-provider vm run in any handler
trace uses a context holding exactly the RequireWrapper over the
injected dependency allow-list, an initially empty `module.exports`
table and the local/noop console; every template vm run uses a context
holding exactly the jade runtime binding; the (spec-modelled) restricted
loader resolves exactly the allow-listed modules; and the functions the
route goes on to run are exactly the ones extracted from
`module.exports.data` and from `context.oc.components` at the template's
declared content-hash key. -/
theorem c9_sandbox_context_bindings
    (E : ComponentEnv) (conf : ResConf) (deps : List String)
    (req : ComponentRequest) (cache : Cache)
    (E₂ : ComponentEnv) (conf₂ : ResConf) (deps₂ : List String) (req₂ : ComponentRequest)
    (cache₂ : Cache) (component₂ : Component) (src₂ : String) (tok₂ : Nat)
    (hgc₂ : E₂.getComponent req₂.componentName (req₂.componentVersion.getD "") = .ok component₂)
    (hval₂ : (E₂.validateComponentParameters (paramsOf E₂ req₂ component₂)
      component₂.oc.parameters).isValid = true)
    (hdp₂ : component₂.oc.files.dataProvider = true)
    (hmiss₂ : cacheHit (cacheGet cache₂ (serverKey component₂)) conf₂.localMode = none)
    (hg₂ : E₂.getDataProvider component₂.name component₂.version = .ok src₂)
    (hvm₂ : E₂.runDataVm src₂ (dataContext deps₂ conf₂.localMode) = .ok (some tok₂))
    (E₃ : ComponentEnv) (conf₃ : ResConf) (deps₃ : List String) (req₃ : ComponentRequest)
    (cache₃ : Cache) (component₃ : Component) (text₃ : String) (comps₃ : List (String × Nat))
    (hgc₃ : E₃.getComponent req₃.componentName (req₃.componentVersion.getD "") = .ok component₃)
    (hval₃ : (E₃.validateComponentParameters (paramsOf E₃ req₃ component₃)
      component₃.oc.parameters).isValid = true)
    (hdp₃ : component₃.oc.files.dataProvider = false)
    (hacc₃ : req₃.accept = none)
    (hmiss₃ : cacheHit (cacheGet cache₃ (templateKey component₃)) conf₃.localMode = none)
    (hcv₃ : E₃.getCompiledView component₃.name component₃.version = .ok text₃)
    (hvt₃ : E₃.runTemplateVm text₃ templateContext = .ok (some comps₃)) :
    (∀ ctx, Ev.vmRunData ctx ∈ (componentHandler E conf deps req cache).2.1 →
      ctx.requireAllowList = deps ∧ ctx.moduleExports = [] ∧
      ctx.console = (if conf.localMode then ConsoleKind.host else ConsoleKind.noopLog)) ∧
    (∀ tctx, Ev.vmRunTemplate tctx ∈ (componentHandler E conf deps req cache).2.1 →
      tctx.jade = "jade/runtime.js") ∧
    (∀ allowList moduleName,
      requireWrapper allowList moduleName = .ok () ↔ moduleName ∈ allowList) ∧
    Ev.invokeProvider tok₂ (reqObjOf E₂ conf₂ (paramsOf E₂ req₂ component₂)
      req₂.acceptLanguage component₂) ∈ (componentHandler E₂ conf₂ deps₂ req₂ cache₂).2.1 ∧
    Ev.renderTemplate (assocGet comps₃ component₃.oc.files.template.hashKey) .emptyObject ∈
      (componentHandler E₃ conf₃ deps₃ req₃ cache₃).2.1 := by
  refine ⟨?_, ?_, ?_, ?_, ?_⟩
  · intro ctx hmem
    rcases componentHandler_evs E conf deps req cache _ hmem
        with ⟨n, v, heq⟩ | ⟨c0, hd⟩ | ⟨-, c0, arg, hr⟩
    · simp at heq
    · simp only [dpNewEv] at hd
      subst hd
      simp [dataContext]
    · simp [rcNewEv] at hr
  · intro tctx hmem
    rcases componentHandler_evs E conf deps req cache _ hmem
        with ⟨n, v, heq⟩ | ⟨c0, hd⟩ | ⟨-, c0, arg, hr⟩
    · simp at heq
    · simp [dpNewEv] at hd
    · simp only [rcNewEv] at hr
      subst hr
      simp [templateContext]
  · intro allowList moduleName
    constructor
    · intro h
      by_cases hm : moduleName ∈ allowList
      · exact hm
      · simp [requireWrapper, hm] at h
    · intro hm
      simp [requireWrapper, hm]
  · rcases hi : E₂.invokeProvider tok₂ (reqObjOf E₂ conf₂ (paramsOf E₂ req₂ component₂)
        req₂.acceptLanguage component₂) with a | m
    · have htr : (componentHandler E₂ conf₂ deps₂ req₂ cache₂).2.1 =
          (returnComponent E₂ conf₂ req₂.accept (req₂.componentVersion.getD "")
            (paramsOf E₂ req₂ component₂) component₂ a
            (cacheSet cache₂ (serverKey component₂) (some tok₂))
            [Ev.getComponent req₂.componentName (req₂.componentVersion.getD ""),
             Ev.getDataProvider component₂.name component₂.version,
             Ev.vmRunData (dataContext deps₂ conf₂.localMode),
             Ev.cacheSet (serverKey component₂) (some tok₂),
             Ev.invokeProvider tok₂ (reqObjOf E₂ conf₂ (paramsOf E₂ req₂ component₂)
               req₂.acceptLanguage component₂)]).2.1 := by
        simp [componentHandler, hgc₂, hval₂, dataPhase, hdp₂, hmiss₂, hg₂, hvm₂, hi]
      rw [htr]
      exact returnComponent_evs_mem _ _ _ _ _ _ _ _ _ _ (by simp)
    · have htr : (componentHandler E₂ conf₂ deps₂ req₂ cache₂).2.1 =
          [Ev.getComponent req₂.componentName (req₂.componentVersion.getD ""),
           Ev.getDataProvider component₂.name component₂.version,
           Ev.vmRunData (dataContext deps₂ conf₂.localMode),
           Ev.cacheSet (serverKey component₂) (some tok₂),
           Ev.invokeProvider tok₂ (reqObjOf E₂ conf₂ (paramsOf E₂ req₂ component₂)
             req₂.acceptLanguage component₂)] := by
        simp [componentHandler, hgc₂, hval₂, dataPhase, hdp₂, hmiss₂, hg₂, hvm₂, hi]
      rw [htr]
      simp
  · rcases hr : E₃.renderTemplate (assocGet comps₃ component₃.oc.files.template.hashKey)
        .emptyObject (renderOptionsOf E₃ conf₃ (req₃.componentVersion.getD "")
          (paramsOf E₃ req₃ component₃) component₃) with e | html
    all_goals {
      have htr : (componentHandler E₃ conf₃ deps₃ req₃ cache₃).2.1 =
          [Ev.getComponent req₃.componentName (req₃.componentVersion.getD ""),
           Ev.getCompiledView component₃.name component₃.version,
           Ev.vmRunTemplate templateContext,
           Ev.cacheSet (templateKey component₃)
             (assocGet comps₃ component₃.oc.files.template.hashKey),
           Ev.renderTemplate (assocGet comps₃ component₃.oc.files.template.hashKey)
             .emptyObject] := by
        simp [componentHandler, hgc₃, hval₃, dataPhase, hdp₃, returnComponent, hacc₃,
          hmiss₃, hcv₃, hvt₃, hr]
      rw [htr]
      simp
    }

/-- Witness for C9 at the concrete environments. -/
theorem c9_witness :
    (envA.getComponent reqRen.componentName (reqRen.componentVersion.getD "") = .ok compA ∧
      envA.runDataVm "dpsource" (dataContext [] confProd.localMode) = .ok (some 7) ∧
      envB.getComponent reqB.componentName (reqB.componentVersion.getD "") = .ok compB ∧
      envB.runTemplateVm "tsource" templateContext = .ok (some [("kb", 11)])) ∧
    ((∀ ctx, Ev.vmRunData ctx ∈ (componentHandler envA confProd [] reqRen []).2.1 →
      ctx.requireAllowList = [] ∧ ctx.moduleExports = [] ∧
      ctx.console = (if confProd.localMode then ConsoleKind.host else ConsoleKind.noopLog)) ∧
    (∀ tctx, Ev.vmRunTemplate tctx ∈ (componentHandler envA confProd [] reqRen []).2.1 →
      tctx.jade = "jade/runtime.js") ∧
    (∀ allowList moduleName,
      requireWrapper allowList moduleName = .ok () ↔ moduleName ∈ allowList) ∧
    Ev.invokeProvider 7 (reqObjOf envA confProd (paramsOf envA reqRen compA)
      reqRen.acceptLanguage compA) ∈ (componentHandler envA confProd [] reqRen []).2.1 ∧
    Ev.renderTemplate (assocGet [("kb", 11)] compB.oc.files.template.hashKey) .emptyObject ∈
      (componentHandler envB confProd [] reqB []).2.1) :=
  ⟨⟨rfl, rfl, rfl, rfl⟩,
    c9_sandbox_context_bindings envA confProd [] reqRen []
      envA confProd [] reqRen [] compA "dpsource" 7 rfl rfl rfl rfl rfl rfl
      envB confProd [] reqB [] compB "tsource" [("kb", 11)] rfl rfl rfl rfl rfl rfl rfl⟩

/-- Claim C5: for every publish request reaching the repository commit
stage, the typed outcomes map to distinct client-visible statuses:
extraction failure → 500 with the underlying error embedded,
`not_allowed` → 403, `already_exists` → 403, `name_not_valid` → 409,
any other repository failure → 500, success → 200 `{ ok: true }`. -/
theorem c5_publish_outcome_mapping
    (req : PublishRequest) (k : String) (f : UploadedFile) (rest : List (String × UploadedFile))
    (hname : truthyStr req.componentName = true)
    (hver : truthyStr req.componentVersion = true)
    (hfiles : req.files = (k, f) :: rest)
    (E₁ : PublishEnv) (err₁ : String)
    (hvv₁ : (E₁.validateVersion (req.componentVersion.getD "")).isValid = true)
    (hvp₁ : (E₁.validatePackage req.files).isValid = true)
    (hx₁ : E₁.extract (E₁.pathResolve [f.path])
      (E₁.pathResolve [f.path, "..", replaceFirst f.name ".tar.gz" ""]) = .error err₁)
    (E₂ : PublishEnv) (m₂ : String)
    (hvv₂ : (E₂.validateVersion (req.componentVersion.getD "")).isValid = true)
    (hvp₂ : (E₂.validatePackage req.files).isValid = true)
    (hx₂ : E₂.extract (E₂.pathResolve [f.path])
      (E₂.pathResolve [f.path, "..", replaceFirst f.name ".tar.gz" ""]) = .ok ())
    (hp₂ : E₂.publishComponent
      (E₂.pathResolve [E₂.pathResolve [f.path, "..", replaceFirst f.name ".tar.gz" ""],
        "_package"]) (req.componentName.getD "") (req.componentVersion.getD "") =
      .error { code := "not_allowed", msg := m₂ })
    (E₃ : PublishEnv) (m₃ : String)
    (hvv₃ : (E₃.validateVersion (req.componentVersion.getD "")).isValid = true)
    (hvp₃ : (E₃.validatePackage req.files).isValid = true)
    (hx₃ : E₃.extract (E₃.pathResolve [f.path])
      (E₃.pathResolve [f.path, "..", replaceFirst f.name ".tar.gz" ""]) = .ok ())
    (hp₃ : E₃.publishComponent
      (E₃.pathResolve [E₃.pathResolve [f.path, "..", replaceFirst f.name ".tar.gz" ""],
        "_package"]) (req.componentName.getD "") (req.componentVersion.getD "") =
      .error { code := "already_exists", msg := m₃ })
    (E₄ : PublishEnv) (m₄ : String)
    (hvv₄ : (E₄.validateVersion (req.componentVersion.getD "")).isValid = true)
    (hvp₄ : (E₄.validatePackage req.files).isValid = true)
    (hx₄ : E₄.extract (E₄.pathResolve [f.path])
      (E₄.pathResolve [f.path, "..", replaceFirst f.name ".tar.gz" ""]) = .ok ())
    (hp₄ : E₄.publishComponent
      (E₄.pathResolve [E₄.pathResolve [f.path, "..", replaceFirst f.name ".tar.gz" ""],
        "_package"]) (req.componentName.getD "") (req.componentVersion.getD "") =
      .error { code := "name_not_valid", msg := m₄ })
    (E₅ : PublishEnv) (code₅ m₅ : String)
    (hvv₅ : (E₅.validateVersion (req.componentVersion.getD "")).isValid = true)
    (hvp₅ : (E₅.validatePackage req.files).isValid = true)
    (hx₅ : E₅.extract (E₅.pathResolve [f.path])
      (E₅.pathResolve [f.path, "..", replaceFirst f.name ".tar.gz" ""]) = .ok ())
    (hp₅ : E₅.publishComponent
      (E₅.pathResolve [E₅.pathResolve [f.path, "..", replaceFirst f.name ".tar.gz" ""],
        "_package"]) (req.componentName.getD "") (req.componentVersion.getD "") =
      .error { code := code₅, msg := m₅ })
    (hc₅a : code₅ ≠ "not_allowed") (hc₅b : code₅ ≠ "already_exists")
    (hc₅c : code₅ ≠ "name_not_valid")
    (E₆ : PublishEnv)
    (hvv₆ : (E₆.validateVersion (req.componentVersion.getD "")).isValid = true)
    (hvp₆ : (E₆.validatePackage req.files).isValid = true)
    (hx₆ : E₆.extract (E₆.pathResolve [f.path])
      (E₆.pathResolve [f.path, "..", replaceFirst f.name ".tar.gz" ""]) = .ok ())
    (hp₆ : E₆.publishComponent
      (E₆.pathResolve [E₆.pathResolve [f.path, "..", replaceFirst f.name ".tar.gz" ""],
        "_package"]) (req.componentName.getD "") (req.componentVersion.getD "") = .ok ()) :
    ((publishHandler E₁ req).1 =
        .response 500 (.errorWithDetails "package file is not valid" err₁) ∧
      (∀ pkg n v, PubEv.publishComponentEv pkg n v ∉ (publishHandler E₁ req).2)) ∧
    ((publishHandler E₂ req).1 = .response 403 (.errorField m₂) ∧
      PubEv.publishComponentEv
        (E₂.pathResolve [E₂.pathResolve [f.path, "..", replaceFirst f.name ".tar.gz" ""],
          "_package"]) (req.componentName.getD "") (req.componentVersion.getD "") ∈
        (publishHandler E₂ req).2) ∧
    ((publishHandler E₃ req).1 = .response 403 (.errorField m₃) ∧
      PubEv.publishComponentEv
        (E₃.pathResolve [E₃.pathResolve [f.path, "..", replaceFirst f.name ".tar.gz" ""],
          "_package"]) (req.componentName.getD "") (req.componentVersion.getD "") ∈
        (publishHandler E₃ req).2) ∧
    ((publishHandler E₄ req).1 = .response 409 (.errorField m₄) ∧
      PubEv.publishComponentEv
        (E₄.pathResolve [E₄.pathResolve [f.path, "..", replaceFirst f.name ".tar.gz" ""],
          "_package"]) (req.componentName.getD "") (req.componentVersion.getD "") ∈
        (publishHandler E₄ req).2) ∧
    ((publishHandler E₅ req).1 = .response 500 (.errorField m₅) ∧
      PubEv.publishComponentEv
        (E₅.pathResolve [E₅.pathResolve [f.path, "..", replaceFirst f.name ".tar.gz" ""],
          "_package"]) (req.componentName.getD "") (req.componentVersion.getD "") ∈
        (publishHandler E₅ req).2) ∧
    ((publishHandler E₆ req).1 = .response 200 .publishOk ∧
      PubEv.publishComponentEv
        (E₆.pathResolve [E₆.pathResolve [f.path, "..", replaceFirst f.name ".tar.gz" ""],
          "_package"]) (req.componentName.getD "") (req.componentVersion.getD "") ∈
        (publishHandler E₆ req).2) := by
  rw [hfiles] at hvp₁ hvp₂ hvp₃ hvp₄ hvp₅ hvp₆
  refine ⟨⟨?_, ?_⟩, ⟨?_, ?_⟩, ⟨?_, ?_⟩, ⟨?_, ?_⟩, ⟨?_, ?_⟩, ⟨?_, ?_⟩⟩
  · simp [publishHandler, hname, hver, hfiles, hvv₁, hvp₁, hx₁]
  · intro pkg n v
    simp [publishHandler, hname, hver, hfiles, hvv₁, hvp₁, hx₁]
  · simp [publishHandler, hname, hver, hfiles, hvv₂, hvp₂, hx₂, hp₂]
  · simp [publishHandler, hname, hver, hfiles, hvv₂, hvp₂, hx₂, hp₂]
  · simp [publishHandler, hname, hver, hfiles, hvv₃, hvp₃, hx₃, hp₃]
  · simp [publishHandler, hname, hver, hfiles, hvv₃, hvp₃, hx₃, hp₃]
  · simp [publishHandler, hname, hver, hfiles, hvv₄, hvp₄, hx₄, hp₄]
  · simp [publishHandler, hname, hver, hfiles, hvv₄, hvp₄, hx₄, hp₄]
  · simp [publishHandler, hname, hver, hfiles, hvv₅, hvp₅, hx₅, hp₅, hc₅a, hc₅b, hc₅c]
  · simp [publishHandler, hname, hver, hfiles, hvv₅, hvp₅, hx₅, hp₅, hc₅a, hc₅b, hc₅c]
  · simp [publishHandler, hname, hver, hfiles, hvv₆, hvp₆, hx₆, hp₆]
  · simp [publishHandler, hname, hver, hfiles, hvv₆, hvp₆, hx₆, hp₆]

/-- A publish request and the publish environments for each outcome. -/
def reqPub : PublishRequest :=
  { componentName := some "widget", componentVersion := some "1.0.0"
    files := [("package", { path := "/tmp/pkg", name := "widget.tar.gz" })] }

def pubEnvOk : PublishEnv :=
  { validateVersion := fun _ => { isValid := true, errorsMessage := "" }
    validatePackage := fun _ => { isValid := true, errorsMessage := "" }
    pathResolve := fun parts => String.join parts
    extract := fun _ _ => .ok ()
    publishComponent := fun _ _ _ => .ok () }

def pubEnvExtractErr : PublishEnv :=
  { pubEnvOk with extract := fun _ _ => .error "unzip fail" }

def pubEnvNotAllowed : PublishEnv :=
  { pubEnvOk with
    publishComponent := fun _ _ _ => Except.error ⟨"not_allowed", "no perms"⟩ }

def pubEnvExists : PublishEnv :=
  { pubEnvOk with
    publishComponent := fun _ _ _ => Except.error ⟨"already_exists", "dup"⟩ }

def pubEnvBadName : PublishEnv :=
  { pubEnvOk with
    publishComponent := fun _ _ _ => Except.error ⟨"name_not_valid", "bad name"⟩ }

def pubEnvOther : PublishEnv :=
  { pubEnvOk with
    publishComponent := fun _ _ _ => Except.error ⟨"eperm", "disk error"⟩ }

/-- Witness for C5 at concrete publish runs of all six outcomes. -/
theorem c5_witness :
    (truthyStr reqPub.componentName = true ∧
      truthyStr reqPub.componentVersion = true ∧
      pubEnvExtractErr.extract (pubEnvExtractErr.pathResolve ["/tmp/pkg"])
        (pubEnvExtractErr.pathResolve ["/tmp/pkg", "..",
          replaceFirst "widget.tar.gz" ".tar.gz" ""]) = .error "unzip fail") ∧
    (((publishHandler pubEnvExtractErr reqPub).1 =
        .response 500 (.errorWithDetails "package file is not valid" "unzip fail") ∧
      (∀ pkg n v, PubEv.publishComponentEv pkg n v ∉
        (publishHandler pubEnvExtractErr reqPub).2)) ∧
    ((publishHandler pubEnvNotAllowed reqPub).1 = .response 403 (.errorField "no perms") ∧
      PubEv.publishComponentEv
        (pubEnvNotAllowed.pathResolve [pubEnvNotAllowed.pathResolve ["/tmp/pkg", "..",
          replaceFirst "widget.tar.gz" ".tar.gz" ""], "_package"])
        (reqPub.componentName.getD "") (reqPub.componentVersion.getD "") ∈
        (publishHandler pubEnvNotAllowed reqPub).2) ∧
    ((publishHandler pubEnvExists reqPub).1 = .response 403 (.errorField "dup") ∧
      PubEv.publishComponentEv
        (pubEnvExists.pathResolve [pubEnvExists.pathResolve ["/tmp/pkg", "..",
          replaceFirst "widget.tar.gz" ".tar.gz" ""], "_package"])
        (reqPub.componentName.getD "") (reqPub.componentVersion.getD "") ∈
        (publishHandler pubEnvExists reqPub).2) ∧
    ((publishHandler pubEnvBadName reqPub).1 = .response 409 (.errorField "bad name") ∧
      PubEv.publishComponentEv
        (pubEnvBadName.pathResolve [pubEnvBadName.pathResolve ["/tmp/pkg", "..",
          replaceFirst "widget.tar.gz" ".tar.gz" ""], "_package"])
        (reqPub.componentName.getD "") (reqPub.componentVersion.getD "") ∈
        (publishHandler pubEnvBadName reqPub).2) ∧
    ((publishHandler pubEnvOther reqPub).1 = .response 500 (.errorField "disk error") ∧
      PubEv.publishComponentEv
        (pubEnvOther.pathResolve [pubEnvOther.pathResolve ["/tmp/pkg", "..",
          replaceFirst "widget.tar.gz" ".tar.gz" ""], "_package"])
        (reqPub.componentName.getD "") (reqPub.componentVersion.getD "") ∈
        (publishHandler pubEnvOther reqPub).2) ∧
    ((publishHandler pubEnvOk reqPub).1 = .response 200 .publishOk ∧
      PubEv.publishComponentEv
        (pubEnvOk.pathResolve [pubEnvOk.pathResolve ["/tmp/pkg", "..",
          replaceFirst "widget.tar.gz" ".tar.gz" ""], "_package"])
        (reqPub.componentName.getD "") (reqPub.componentVersion.getD "") ∈
        (publishHandler pubEnvOk reqPub).2)) :=
  ⟨⟨rfl, rfl, rfl⟩,
    c5_publish_outcome_mapping reqPub "package"
      { path := "/tmp/pkg", name := "widget.tar.gz" } [] rfl rfl rfl
      pubEnvExtractErr "unzip fail" rfl rfl rfl
      pubEnvNotAllowed "no perms" rfl rfl rfl rfl
      pubEnvExists "dup" rfl rfl rfl rfl
      pubEnvBadName "bad name" rfl rfl rfl rfl
      pubEnvOther "eperm" "disk error" rfl rfl rfl rfl
        (by decide) (by decide) (by decide)
      pubEnvOk rfl rfl rfl rfl⟩

/-- Claim C6: the Validated stage rejects with 409 before any extraction
or repository call — missing name/version yields "malformed request"
with no collaborator invoked, an invalid version yields "not a valid
version" after only the version validator ran, an invalid package yields
"package is not valid" after exactly the two validators ran in order,
and only when all three checks pass does extraction begin. -/
theorem c6_publish_validation_order
    (E₁ : PublishEnv) (req₁ : PublishRequest)
    (hname₁ : truthyStr req₁.componentName = false)
    (E₁b : PublishEnv) (req₁b : PublishRequest)
    (hname₁b : truthyStr req₁b.componentName = true)
    (hver₁b : truthyStr req₁b.componentVersion = false)
    (E₂ : PublishEnv) (req₂ : PublishRequest)
    (hname₂ : truthyStr req₂.componentName = true)
    (hver₂ : truthyStr req₂.componentVersion = true)
    (hvv₂ : (E₂.validateVersion (req₂.componentVersion.getD "")).isValid = false)
    (E₃ : PublishEnv) (req₃ : PublishRequest)
    (hname₃ : truthyStr req₃.componentName = true)
    (hver₃ : truthyStr req₃.componentVersion = true)
    (hvv₃ : (E₃.validateVersion (req₃.componentVersion.getD "")).isValid = true)
    (hvp₃ : (E₃.validatePackage req₃.files).isValid = false)
    (E₄ : PublishEnv) (req₄ : PublishRequest) (k₄ : String) (f₄ : UploadedFile)
    (rest₄ : List (String × UploadedFile))
    (hname₄ : truthyStr req₄.componentName = true)
    (hver₄ : truthyStr req₄.componentVersion = true)
    (hvv₄ : (E₄.validateVersion (req₄.componentVersion.getD "")).isValid = true)
    (hvp₄ : (E₄.validatePackage req₄.files).isValid = true)
    (hfiles₄ : req₄.files = (k₄, f₄) :: rest₄) :
    publishHandler E₁ req₁ = (.response 409 (.errorField "malformed request"), []) ∧
    publishHandler E₁b req₁b = (.response 409 (.errorField "malformed request"), []) ∧
    publishHandler E₂ req₂ = (.response 409 (.errorField "not a valid version"),
      [PubEv.validateVersionEv (req₂.componentVersion.getD "")]) ∧
    publishHandler E₃ req₃ = (.response 409 (.errorField "package is not valid"),
      [PubEv.validateVersionEv (req₃.componentVersion.getD ""), PubEv.validatePackageEv]) ∧
    (∃ tail, (publishHandler E₄ req₄).2 =
      [PubEv.validateVersionEv (req₄.componentVersion.getD ""), PubEv.validatePackageEv,
       PubEv.extractEv (E₄.pathResolve [f₄.path])
         (E₄.pathResolve [f₄.path, "..", replaceFirst f₄.name ".tar.gz" ""])] ++ tail) := by
  refine ⟨?_, ?_, ?_, ?_, ?_⟩
  · simp [publishHandler, hname₁]
  · simp [publishHandler, hname₁b, hver₁b]
  · simp [publishHandler, hname₂, hver₂, hvv₂]
  · simp [publishHandler, hname₃, hver₃, hvv₃, hvp₃]
  · rw [hfiles₄] at hvp₄
    rcases hx : E₄.extract (E₄.pathResolve [f₄.path])
        (E₄.pathResolve [f₄.path, "..", replaceFirst f₄.name ".tar.gz" ""]) with e | u
    · refine ⟨[], ?_⟩
      simp [publishHandler, hname₄, hver₄, hvv₄, hvp₄, hfiles₄, hx]
    · rcases hp : E₄.publishComponent
          (E₄.pathResolve [E₄.pathResolve [f₄.path, "..", replaceFirst f₄.name ".tar.gz" ""],
            "_package"]) (req₄.componentName.getD "") (req₄.componentVersion.getD "")
          with e | u2
      · refine ⟨[PubEv.publishComponentEv
            (E₄.pathResolve [E₄.pathResolve [f₄.path, "..",
              replaceFirst f₄.name ".tar.gz" ""], "_package"])
            (req₄.componentName.getD "") (req₄.componentVersion.getD "")], ?_⟩
        simp only [publishHandler, hname₄, hver₄, hvv₄, hvp₄, hfiles₄, hx, hp]
        repeat' split
        all_goals simp_all
      · refine ⟨[PubEv.publishComponentEv
            (E₄.pathResolve [E₄.pathResolve [f₄.path, "..",
              replaceFirst f₄.name ".tar.gz" ""], "_package"])
            (req₄.componentName.getD "") (req₄.componentVersion.getD "")], ?_⟩
        simp [publishHandler, hname₄, hver₄, hvv₄, hvp₄, hfiles₄, hx, hp]

/-- Environments failing each validation stage. -/
def pubEnvVvErr : PublishEnv :=
  { pubEnvOk with validateVersion := fun _ => { isValid := false, errorsMessage := "" } }

def pubEnvVpErr : PublishEnv :=
  { pubEnvOk with validatePackage := fun _ => { isValid := false, errorsMessage := "" } }

/-- A publish request with no component name. -/
def reqPubNoName : PublishRequest :=
  { componentName := none, componentVersion := some "1.0.0", files := [] }

/-- A publish request with a name but no component version. -/
def reqPubNoVer : PublishRequest :=
  { componentName := some "widget", componentVersion := none, files := [] }

/-- Witness for C6 at concrete runs of all stages, including both
malformed-request triggers. -/
theorem c6_witness :
    (truthyStr reqPubNoName.componentName = false ∧
      truthyStr reqPubNoVer.componentName = true ∧
      truthyStr reqPubNoVer.componentVersion = false ∧
      (pubEnvVvErr.validateVersion (reqPub.componentVersion.getD "")).isValid = false ∧
      (pubEnvVpErr.validatePackage reqPub.files).isValid = false) ∧
    (publishHandler pubEnvVvErr reqPubNoName =
      (.response 409 (.errorField "malformed request"), []) ∧
    publishHandler pubEnvOk reqPubNoVer =
      (.response 409 (.errorField "malformed request"), []) ∧
    publishHandler pubEnvVvErr reqPub = (.response 409 (.errorField "not a valid version"),
      [PubEv.validateVersionEv (reqPub.componentVersion.getD "")]) ∧
    publishHandler pubEnvVpErr reqPub = (.response 409 (.errorField "package is not valid"),
      [PubEv.validateVersionEv (reqPub.componentVersion.getD ""), PubEv.validatePackageEv]) ∧
    (∃ tail, (publishHandler pubEnvOk reqPub).2 =
      [PubEv.validateVersionEv (reqPub.componentVersion.getD ""), PubEv.validatePackageEv,
       PubEv.extractEv (pubEnvOk.pathResolve ["/tmp/pkg"])
         (pubEnvOk.pathResolve ["/tmp/pkg", "..",
           replaceFirst "widget.tar.gz" ".tar.gz" ""])] ++ tail)) :=
  ⟨⟨rfl, rfl, rfl, rfl, rfl⟩,
    c6_publish_validation_order
      pubEnvVvErr reqPubNoName rfl
      pubEnvOk reqPubNoVer rfl rfl
      pubEnvVvErr reqPub rfl rfl rfl
      pubEnvVpErr reqPub rfl rfl rfl rfl
      pubEnvOk reqPub "package" { path := "/tmp/pkg", name := "widget.tar.gz" } []
        rfl rfl rfl rfl rfl⟩

end Oc
